import Mathlib

/-!
Shallow embedding of the Rogue Signal Protocol core (RogueSignalProtocol.py)
and verification of the frozen specification claims.

The Python source is single-threaded and uses the global `random` module;
we model every consultation of the RNG as reading from an explicit oracle
stream of naturals (`Rng`), threaded through state.  Python `int` is
modelled by `Int`; the finite coordinate sets of the map by lists with
decidable membership.  Functions keep the source's names (snake_case
converted to lowerCamel where Lean style demands it is avoided: we keep
the original names via `_` where legal).
-/

set_option maxRecDepth 40000

namespace RSP

/-- RNG oracle: a stream of naturals consumed one draw at a time.
An exhausted stream yields 0 forever (never reached in the concrete
evaluations below; kept total for executability). -/
abbrev Rng : Type := List Nat

/-- Consume one draw from the oracle. -/
def rngNext (r : Rng) : Nat × Rng :=
  match r with
  | [] => (0, [])
  | v :: rest => (v, rest)

/-- `random.randint(a, b)` (inclusive bounds, a ≤ b): one oracle draw
mapped into the range. -/
def randint (a b : Int) (r : Rng) : Int × Rng :=
  let (v, r') := rngNext r
  (a + (v : Int) % (b - a + 1), r')

/-- `random.random() < 0.15`: a Bernoulli draw, modelled as one oracle
draw reduced mod 100 compared against 15. -/
def randChance15 (r : Rng) : Bool × Rng :=
  let (v, r') := rngNext r
  (v % 100 < 15, r')

/-- `Position`: 2D position with integer x, y coordinates. -/
structure Position where
  x : Int
  y : Int
  deriving DecidableEq, Repr

/-- `Position.distance_to`: Chebyshev distance. -/
def Position.distance_to (p q : Position) : Int :=
  max ((p.x - q.x).natAbs : Int) ((p.y - q.y).natAbs : Int)

/-- `Position.is_valid`: within bounds `0 ≤ x < width`, `0 ≤ y < height`. -/
def Position.is_valid (p : Position) (width height : Int) : Bool :=
  0 ≤ p.x && p.x < width && 0 ≤ p.y && p.y < height

/-- `GameConfig.MAP_WIDTH` -/
def MAP_WIDTH : Int := 50

/-- `GameConfig.MAP_HEIGHT` -/
def MAP_HEIGHT : Int := 50

/-- `GameConfig.ADMIN_SPAWN_THRESHOLDS.get(level, 50)`: the per-level
admin spawn thresholds `{1: 90, 2: 75, 3: 60}` with dict-get default 50. -/
def adminSpawnThreshold (level : Int) : Int :=
  if level = 1 then 90 else if level = 2 then 75 else if level = 3 then 60 else 50

/-- `EnemyState` -/
inductive EnemyState where
  | unaware
  | alert
  | hostile
  deriving DecidableEq, Repr

/-- `EnemyMovement` -/
inductive EnemyMovement where
  | static
  | linear
  | random
  | seek
  | track
  deriving DecidableEq, Repr

/-- Enemy type keys of `GameData.ENEMY_TYPES`. -/
inductive EnemyType where
  | scanner
  | patrol
  | bot
  | firewall
  | hunter
  | admin
  deriving DecidableEq, Repr

/-- `EnemyTypeDefinition` -/
structure EnemyTypeDefinition where
  symbol : String
  cpu : Int
  vision : Int
  movement : EnemyMovement
  name : String
  damage : Int
  deriving DecidableEq, Repr

/-- `GameData.ENEMY_TYPES` -/
def ENEMY_TYPES : EnemyType → EnemyTypeDefinition
  | .scanner => ⟨"s", 20, 2, .static, "Scanner", 10⟩
  | .patrol => ⟨"p", 25, 3, .linear, "Patrol", 15⟩
  | .bot => ⟨"b", 15, 2, .random, "Bot", 8⟩
  | .firewall => ⟨"F", 40, 1, .static, "Firewall", 20⟩
  | .hunter => ⟨"H", 35, 5, .seek, "Hunter", 25⟩
  | .admin => ⟨"A", 100, 6, .track, "Admin Avatar", 40⟩

/-- `TargetingMode` -/
inductive TargetingMode where
  | none
  | single
  | area
  | direction
  deriving DecidableEq, Repr

/-- Exploit keys of `GameData.EXPLOITS`. -/
inductive ExploitKey where
  | shadow_step
  | data_mimic
  | noise_maker
  | buffer_overflow
  | code_injection
  | system_crash
  | network_scan
  | log_wiper
  | emp_burst
  deriving DecidableEq, Repr

/-- `ExploitDefinition` (name and description strings are presentation
data and are omitted; all behavioural fields are kept). -/
structure ExploitDefinition where
  ram : Int
  heat : Int
  range : Int
  exploit_type : String
  targeting : TargetingMode
  deriving DecidableEq, Repr

/-- `GameData.EXPLOITS` -/
def EXPLOITS : ExploitKey → ExploitDefinition
  | .shadow_step => ⟨2, 20, 8, "stealth", .single⟩
  | .data_mimic => ⟨1, 15, 0, "stealth", .none⟩
  | .noise_maker => ⟨1, 10, 6, "stealth", .single⟩
  | .buffer_overflow => ⟨2, 25, 1, "combat", .single⟩
  | .code_injection => ⟨1, 15, 4, "combat", .single⟩
  | .system_crash => ⟨3, 35, 3, "combat", .area⟩
  | .network_scan => ⟨1, 10, 8, "utility", .none⟩
  | .log_wiper => ⟨1, 5, 0, "utility", .none⟩
  | .emp_burst => ⟨3, 40, 2, "emergency", .area⟩

/-- Effect keys dispatched on by `DataPatch._apply_effect` (the six
strings produced by `Game._randomize_data_patches`). -/
inductive EffectKey where
  | restore_cpu
  | reduce_heat
  | reduce_detection
  | speed_boost
  | enhanced_vision
  | exploit_efficiency
  deriving DecidableEq, Repr

/-- `DataPatch`: colour string plus hidden effect and discovery flag
(name/description are presentation strings, omitted). -/
structure DataPatch where
  color : String
  effect : EffectKey
  discovered : Bool
  deriving DecidableEq, Repr

/-- `GameMap`: terrain/feature coordinate sets (modelled as lists with
decidable membership) plus the data-patch map and gateway. -/
structure GameMap where
  width : Int
  height : Int
  walls : List (Int × Int)
  shadows : List (Int × Int)
  cooling_nodes : List (Int × Int)
  cpu_recovery_nodes : List (Int × Int)
  data_patches : List ((Int × Int) × DataPatch)
  gateway : Option Position
  deriving DecidableEq, Repr

/-- `GameMap.is_wall`: out-of-bounds counts as wall. -/
def GameMap.is_wall (m : GameMap) (position : Position) : Bool :=
  if ¬ position.is_valid m.width m.height then true
  else m.walls.contains (position.x, position.y)

/-- `GameMap.is_shadow`: out-of-bounds is not shadow. -/
def GameMap.is_shadow (m : GameMap) (position : Position) : Bool :=
  if ¬ position.is_valid m.width m.height then false
  else m.shadows.contains (position.x, position.y)

/-- `GameMap.is_cooling_node` -/
def GameMap.is_cooling_node (m : GameMap) (position : Position) : Bool :=
  m.cooling_nodes.contains (position.x, position.y)

/-- `GameMap.is_cpu_recovery_node` -/
def GameMap.is_cpu_recovery_node (m : GameMap) (position : Position) : Bool :=
  m.cpu_recovery_nodes.contains (position.x, position.y)

/-- `GameMap.get_data_patch` (dict `.get`). -/
def GameMap.get_data_patch (m : GameMap) (position : Position) : Option DataPatch :=
  (m.data_patches.find? (fun e => e.1 = (position.x, position.y))).map (·.2)

/-- `GameMap.is_valid_position`: in bounds and not a wall. -/
def GameMap.is_valid_position (m : GameMap) (position : Position) : Bool :=
  position.is_valid m.width m.height && ¬ m.is_wall position

/-- The body of the `while True` loop of `GameMap.has_line_of_sight`
(integer Bresenham stepping).  The Python loop always reaches the
endpoint within `dx + dy` iterations (each iteration advances `x`
and/or `y` one step); the `fuel` argument makes the recursion
structural and is chosen large enough in `has_line_of_sight` that it
is never exhausted on the loop's actual trajectory. -/
def losLoop (m : GameMap) (ex ey sx sy dx dy : Int) :
    Nat → Int → Int → Int → Bool
  | 0, _, _, _ => false
  | fuel + 1, x, y, err =>
    if x = ex ∧ y = ey then true
    else if m.is_wall ⟨x, y⟩ then false
    else
      let e2 := 2 * err
      let (err₁, x₁) := if e2 > -dy then (err - dy, x + sx) else (err, x)
      let (err₂, y₁) := if e2 < dx then (err₁ + dx, y + sy) else (err₁, y)
      losLoop m ex ey sx sy dx dy fuel x₁ y₁ err₂

/-- `GameMap.has_line_of_sight`: Bresenham line walk; false at the first
wall cell traversed before arrival, true on arrival at `e`. -/
def GameMap.has_line_of_sight (m : GameMap) (s e : Position) : Bool :=
  if ¬ (s.is_valid m.width m.height && e.is_valid m.width m.height) then false
  else
    let dx : Int := (e.x - s.x).natAbs
    let dy : Int := (e.y - s.y).natAbs
    let sx : Int := if s.x < e.x then 1 else -1
    let sy : Int := if s.y < e.y then 1 else -1
    losLoop m e.x e.y sx sy dx dy ((dx + dy).toNat + 1) s.x s.y (dx - dy)

/-- `Player`: position, stats, timed effects (the four fixed keys of
`temporary_effects` are individual fields) and the equipped-exploit
loadout of its `InventoryManager`.  The item list holds the picked-up
data patches. -/
structure Player where
  position : Position
  last_position : Position
  cpu : Int
  max_cpu : Int
  heat : Int
  detection : Int
  ram_total : Int
  base_vision_range : Int
  data_mimic_turns : Int
  speed_boost_turns : Int
  enhanced_vision_turns : Int
  exploit_efficiency_turns : Int
  items : List DataPatch
  equipped_exploits : List ExploitKey
  deriving DecidableEq, Repr

/-- `Player.__init__(x, y)` -/
def Player.init (x y : Int) : Player :=
  { position := ⟨x, y⟩
    last_position := ⟨x, y⟩
    cpu := 100
    max_cpu := 100
    heat := 0
    detection := 0
    ram_total := 8
    base_vision_range := 15
    data_mimic_turns := 0
    speed_boost_turns := 0
    enhanced_vision_turns := 0
    exploit_efficiency_turns := 0
    items := []
    equipped_exploits := [.shadow_step, .network_scan, .code_injection] }

/-- `Player.update_effects`: each timed-effect counter decays with floor 0. -/
def Player.update_effects (p : Player) : Player :=
  { p with
    data_mimic_turns := max 0 (p.data_mimic_turns - 1)
    speed_boost_turns := max 0 (p.speed_boost_turns - 1)
    enhanced_vision_turns := max 0 (p.enhanced_vision_turns - 1)
    exploit_efficiency_turns := max 0 (p.exploit_efficiency_turns - 1) }

/-- `Player.is_invisible` -/
def Player.is_invisible (p : Player) : Bool :=
  p.data_mimic_turns > 0

/-- `Player.get_vision_range` -/
def Player.get_vision_range (p : Player) : Int :=
  if p.enhanced_vision_turns > 0 then p.base_vision_range + 5
  else p.base_vision_range

/-- `Player.take_damage`: clamps the removed amount to the current cpu;
returns the updated player and the actual damage taken. -/
def Player.take_damage (p : Player) (damage : Int) : Player × Int :=
  let actual_damage := min damage p.cpu
  ({ p with cpu := p.cpu - actual_damage }, actual_damage)

/-- `Enemy` -/
structure Enemy where
  position : Position
  type : EnemyType
  cpu : Int
  max_cpu : Int
  state : EnemyState
  alert_timer : Int
  disabled_turns : Int
  move_cooldown : Int
  patrol_points : List Position
  patrol_index : Nat
  last_seen_player : Option Position
  deriving DecidableEq, Repr

/-- `Enemy.type_data` -/
def Enemy.type_data (e : Enemy) : EnemyTypeDefinition :=
  ENEMY_TYPES e.type

/-- `Enemy.__init__(position, enemy_type)` -/
def Enemy.init (position : Position) (enemy_type : EnemyType) : Enemy :=
  { position := position
    type := enemy_type
    cpu := (ENEMY_TYPES enemy_type).cpu
    max_cpu := (ENEMY_TYPES enemy_type).cpu
    state := .unaware
    alert_timer := 0
    disabled_turns := 0
    move_cooldown := 0
    patrol_points := []
    patrol_index := 0
    last_seen_player := none }

/-- `Enemy.can_see_player`: disabled enemies see nothing; then vision
range, invisibility and target-in-shadow checks; finally line of sight. -/
def Enemy.can_see_player (e : Enemy) (player : Player) (game_map : GameMap) : Bool :=
  if e.disabled_turns > 0 then false
  else
    let distance := e.position.distance_to player.position
    if distance > e.type_data.vision then false
    else if player.is_invisible then false
    else if game_map.is_shadow player.position then false
    else game_map.has_line_of_sight e.position player.position

/-- `Enemy.can_attack_player`: adjacent and not disabled. -/
def Enemy.can_attack_player (e : Enemy) (player : Player) : Bool :=
  e.position.distance_to player.position ≤ 1 && e.disabled_turns = 0

/-- `Enemy.attack_player`: deal archetype contact damage, returning the
damaged player and the actual damage dealt. -/
def Enemy.attack_player (e : Enemy) (player : Player) : Player × Int :=
  player.take_damage e.type_data.damage

/-- `Enemy.take_damage`: subtract, report destruction at cpu ≤ 0. -/
def Enemy.take_damage (e : Enemy) (damage : Int) : Enemy × Bool :=
  let e' := { e with cpu := e.cpu - damage }
  (e', e'.cpu ≤ 0)

/-- `Enemy._reset_movement_cooldown` -/
def Enemy.reset_movement_cooldown (e : Enemy) : Enemy :=
  if e.type_data.movement = .linear then { e with move_cooldown := 1 }
  else { e with move_cooldown := 2 }

/-- Swap two list entries (helper for the shuffle model). -/
def listSwap {α : Type} (l : List α) (i j : Nat) : List α :=
  match l.get? i, l.get? j with
  | some a, some b => (l.set i b).set j a
  | _, _ => l

/-- Fisher–Yates inner loop: processes indices `i, i-1, ..., 1`,
drawing one oracle value per index (CPython's `random.shuffle`
algorithm with the oracle supplying `j = draw mod (i+1)`). -/
def shuffleLoop {α : Type} : Nat → List α → Rng → List α × Rng
  | 0, l, r => (l, r)
  | k + 1, l, r =>
    let i := k + 1
    let (v, r') := rngNext r
    let j := v % (i + 1)
    shuffleLoop k (listSwap l i j) r'

/-- `random.shuffle` -/
def shuffle {α : Type} (l : List α) (r : Rng) : List α × Rng :=
  shuffleLoop (l.length - 1) l r

/-- The eight neighbour directions used by `Enemy._move_random`. -/
def randomDirections : List (Int × Int) :=
  [(0, -1), (1, -1), (1, 0), (1, 1), (0, 1), (-1, 1), (-1, 0), (-1, -1)]

/-- Find the first acceptable candidate step of an enemy move: in global
map bounds, walkable on the map, and not the intruder's cell (shared by
`_move_random` and `_move_toward`). -/
def firstAcceptedStep (e : Enemy) (game_map : GameMap) (player : Player)
    (attempts : List (Int × Int)) : Option Position :=
  (attempts.map (fun d => Position.mk (e.position.x + d.1) (e.position.y + d.2))).find?
    (fun q => q.is_valid MAP_WIDTH MAP_HEIGHT && game_map.is_valid_position q &&
      ¬ q.distance_to player.position = 0)

/-- `Enemy._move_toward`: try the exact delta, then axis-only deltas,
then the remaining combinations; take the first acceptable step. -/
def Enemy.move_toward (e : Enemy) (target : Position) (game_map : GameMap)
    (player : Player) : Enemy :=
  if ¬ target.is_valid MAP_WIDTH MAP_HEIGHT then e
  else
    let dx : Int := if e.position.x = target.x then 0
      else if target.x > e.position.x then 1 else -1
    let dy : Int := if e.position.y = target.y then 0
      else if target.y > e.position.y then 1 else -1
    let move_attempts := [(dx, dy), (dx, 0), (0, dy), (dx, -dy), (-dx, dy),
      (-dx, 0), (0, -dy), (-dx, -dy)]
    -- the Python loop skips the (0, 0) candidate
    match firstAcceptedStep e game_map player
      (move_attempts.filter (fun d => ¬ (d.1 = 0 ∧ d.2 = 0))) with
    | some q => { e with position := q }
    | none => e

/-- `Enemy._move_random`: hostile enemies chase the intruder, otherwise
one shuffled legal neighbour step. -/
def Enemy.move_random (e : Enemy) (game_map : GameMap) (player : Player)
    (r : Rng) : Enemy × Rng :=
  if e.state = .hostile then (e.move_toward player.position game_map player, r)
  else
    let (dirs, r') := shuffle randomDirections r
    match firstAcceptedStep e game_map player dirs with
    | some q => ({ e with position := q }, r')
    | none => (e, r')

/-- `Enemy._move_patrol`: hostile enemies chase; otherwise advance toward
the current waypoint, cycling the index on arrival (distance ≤ 1).
(The Python waypoint list access `patrol_points[patrol_index]` is
modelled with a default for an out-of-range index, which the code keeps
in range via the modulo update.) -/
def Enemy.move_patrol (e : Enemy) (game_map : GameMap) (player : Player) : Enemy :=
  if e.state = .hostile then e.move_toward player.position game_map player
  else if e.patrol_points = [] then e
  else
    let target := e.patrol_points.getD e.patrol_index ⟨0, 0⟩
    let (e', target') :=
      if e.position.distance_to target ≤ 1 then
        let idx := (e.patrol_index + 1) % e.patrol_points.length
        ({ e with patrol_index := idx }, e.patrol_points.getD idx ⟨0, 0⟩)
      else (e, target)
    e'.move_toward target' game_map player

/-- `Enemy.move`: a disabled enemy only decrements its disabled counter;
then the move-cooldown throttle; then the per-archetype strategy. -/
def Enemy.move (e : Enemy) (game_map : GameMap) (player : Player)
    (r : Rng) : Enemy × Rng :=
  if e.disabled_turns > 0 then
    ({ e with disabled_turns := e.disabled_turns - 1 }, r)
  else
    let e := { e with move_cooldown := e.move_cooldown - 1 }
    if e.move_cooldown > 0 then (e, r)
    else
      let e := e.reset_movement_cooldown
      match e.type_data.movement with
      | .static => (e, r)
      | .random => e.move_random game_map player r
      | .linear =>
        if ¬ e.patrol_points = [] then (e.move_patrol game_map player, r)
        else (e, r)
      | .seek =>
        match e.last_seen_player with
        | some p => if e.state = .hostile then (e.move_toward p game_map player, r)
          else (e, r)
        | none => (e, r)
      | .track =>
        if e.state = .hostile then (e.move_toward player.position game_map player, r)
        else (e, r)

/-- The distinct `message_log.add_message` call sites of the embedded
code, with their numeric/type parameters (the rendered strings and
colours are presentation data). -/
inductive Msg where
  | networkScanExpired
  | coolingNode (amt : Int)
  | cpuRecovery (amt : Int)
  | foundPatch (color : String)
  | investigating (t : EnemyType)
  | detectedYou (t : EnemyType)
  | lostInterest (t : EnemyType)
  | lostTrack (t : EnemyType)
  | enemyAttacks (t : EnemyType) (dmg : Int)
  | criticalSystemFailure
  | adminAvatarSpawned
  | shadowStepExecuted
  | targetOccupied
  | mustTargetShadowZone
  | dataMimicActive
  | noiseAttracted (n : Int)
  | eliminatedEnemy (t : EnemyType)
  | damagedEnemy (t : EnemyType)
  | noTargetAtLocation
  | noEnemyAtTarget
  | mustTargetAdjacentEnemy
  | systemCrashDisabled (n : Int)
  | networkScanActive
  | detectionReduced (amt : Int)
  | empDisabled (n : Int)
  | exploitNotEquipped
  | systemTooHot
  | targetingExploitMsg (k : ExploitKey)
  | cpuRestored (amt : Int)
  | heatReduced (amt : Int)
  | speedBoostActive
  | enhancedVisionActive
  | exploitEfficiencyActive
  | invalidTargetLocation
  | outOfRange (maxRange : Int)
  | usedPatch (color : String)
  deriving DecidableEq, Repr

/-- `Game`: the run state threaded through every operation.  UI-only
fields (inventory screens, help overlay) and the level generator's
transient data are outside the embedded claims and omitted; the RNG
oracle stream stands in for the global `random` module. -/
structure Game where
  player : Player
  enemies : List Enemy
  game_map : GameMap
  messages : List Msg
  level : Int
  turn : Int
  game_over : Bool
  admin_spawned : Bool
  show_patrols : Bool
  network_scan_turns : Int
  targeting_mode : Bool
  targeting_exploit : Option ExploitKey
  cursor_position : Position
  rng : Rng
  deriving DecidableEq, Repr

/-- `MessageLog.add_message` with `max_messages = 100` truncation. -/
def Game.add_message (g : Game) (m : Msg) : Game :=
  let msgs := g.messages ++ [m]
  { g with messages := if msgs.length > 100 then msgs.drop (msgs.length - 100) else msgs }

/-- `Game._get_enemy_at`: first enemy at Chebyshev distance 0. -/
def Game.get_enemy_at (g : Game) (position : Position) : Option Enemy :=
  g.enemies.find? (fun e => e.position.distance_to position = 0)

/-- `Game._update_network_scan`: decay the scan timer when positive and
emit the expiry notice exactly when it reaches zero. -/
def Game.update_network_scan (g : Game) : Game :=
  if g.network_scan_turns > 0 then
    let g := { g with network_scan_turns := g.network_scan_turns - 1 }
    if g.network_scan_turns = 0 then
      let g := { g with show_patrols := false }
      g.add_message .networkScanExpired
    else g
  else g

/-- `Game._process_special_tiles`: cooling reduces heat, the recovery
node heals up to the deficit (capped 20), a data patch at the cell is
transferred to the inventory and removed from the map. -/
def Game.process_special_tiles (g : Game) : Game :=
  let player_pos := (g.player.position.x, g.player.position.y)
  -- cooling node
  let g :=
    if g.game_map.is_cooling_node g.player.position then
      let old_heat := g.player.heat
      let g := { g with player := { g.player with heat := max 0 (g.player.heat - 20) } }
      if old_heat > g.player.heat then
        g.add_message (.coolingNode (old_heat - g.player.heat))
      else g
    else g
  -- cpu recovery node
  let g :=
    if g.game_map.is_cpu_recovery_node g.player.position then
      let recovery := min 20 (g.player.max_cpu - g.player.cpu)
      let g := { g with player := { g.player with cpu := g.player.cpu + recovery } }
      if recovery > 0 then g.add_message (.cpuRecovery recovery) else g
    else g
  -- data patch pickup
  match g.game_map.data_patches.find? (fun e => e.1 = player_pos) with
  | some entry =>
    let g := { g with player := { g.player with items := g.player.items ++ [entry.2] } }
    let g := g.add_message (.foundPatch entry.2.color)
    { g with game_map := { g.game_map with
        data_patches := g.game_map.data_patches.filter (fun e => ¬ e.1 = player_pos) } }
  | none => g

/-- `Game._handle_enemy_sees_player`: Unaware → Alert (timer 3);
Alert countdown → Hostile with last-seen stamp and a one-time
detection spike (15 for the admin, 10 otherwise); Hostile refreshes
last-seen and trickles detection (3 for the admin, 1 otherwise).
Detection increases are clamped at 100. -/
def Game.handle_enemy_sees_player (g : Game) (e : Enemy) : Game × Enemy :=
  match e.state with
  | .unaware =>
    let e := { e with state := .alert, alert_timer := 3 }
    (g.add_message (.investigating e.type), e)
  | .alert =>
    let e := { e with alert_timer := e.alert_timer - 1 }
    if e.alert_timer ≤ 0 then
      let e := { e with state := .hostile, last_seen_player := some g.player.position }
      let detection_increase : Int := if e.type = .admin then 15 else 10
      let g := { g with player := { g.player with
        detection := min 100 (g.player.detection + detection_increase) } }
      (g.add_message (.detectedYou e.type), e)
    else (g, e)
  | .hostile =>
    let e := { e with last_seen_player := some g.player.position }
    let detection_increase : Int := if e.type = .admin then 3 else 1
    ({ g with player := { g.player with
      detection := min 100 (g.player.detection + detection_increase) } }, e)

/-- `Game._handle_enemy_loses_player`: Alert countdown back to Unaware;
Hostile decays with 15% chance per turn (the admin falls back to Alert
with timer 5 instead of Unaware). -/
def Game.handle_enemy_loses_player (g : Game) (e : Enemy) : Game × Enemy :=
  match e.state with
  | .alert =>
    let e := { e with alert_timer := e.alert_timer - 1 }
    if e.alert_timer ≤ 0 then
      let e := { e with state := .unaware }
      (g.add_message (.lostInterest e.type), e)
    else (g, e)
  | .hostile =>
    let (decay, r) := randChance15 g.rng
    let g := { g with rng := r }
    if decay then
      if e.type = .admin then
        (g, { e with state := .alert, alert_timer := 5 })
      else
        let e := { e with state := .unaware, last_seen_player := none }
        (g.add_message (.lostTrack e.type), e)
    else (g, e)
  | .unaware => (g, e)

/-- The loop body of `Game._update_enemy_awareness`: one observation
check for one enemy, accumulating the updated enemy list. -/
def Game.awarenessStep (acc : Game × List Enemy) (e : Enemy) : Game × List Enemy :=
  let (g, done) := acc
  let (g', e') :=
    if e.can_see_player g.player g.game_map then g.handle_enemy_sees_player e
    else g.handle_enemy_loses_player e
  (g', done ++ [e'])

/-- `Game._update_enemy_awareness`: one observation check per enemy, in
list order, before movement. -/
def Game.update_enemy_awareness (g : Game) : Game :=
  let (g', es) := g.enemies.foldl Game.awarenessStep (g, [])
  { g' with enemies := es }

/-- The loop body of `Game._move_enemies`: one enemy movement step,
threading the RNG oracle. -/
def Game.moveStep (game_map : GameMap) (player : Player)
    (acc : List Enemy × Rng) (e : Enemy) : List Enemy × Rng :=
  let (e', r') := e.move game_map player acc.2
  (acc.1 ++ [e'], r')

/-- `Game._move_enemies`: every enemy takes its movement step, in list
order, threading the RNG oracle. -/
def Game.move_enemies (g : Game) : Game :=
  let (es, r) := g.enemies.foldl (Game.moveStep g.game_map g.player) ([], g.rng)
  { g with enemies := es, rng := r }

/-- The loop body of `Game._process_enemy_attacks`: one enemy's
contact-damage check. -/
def Game.attackStep (g : Game) (e : Enemy) : Game :=
  if e.can_attack_player g.player then
    let (p', damage) := e.attack_player g.player
    let g := { g with player := p' }
    let g := g.add_message (.enemyAttacks e.type damage)
    if g.player.cpu ≤ 0 then g.add_message .criticalSystemFailure else g
  else g

/-- `Game._process_enemy_attacks`: every enemy adjacent to the intruder
deals its contact damage. -/
def Game.process_enemy_attacks (g : Game) : Game :=
  g.enemies.foldl Game.attackStep g

/-- `Game._update_enemies`: observation, then movement, then
contact damage. -/
def Game.update_enemies (g : Game) : Game :=
  g.update_enemy_awareness.move_enemies.process_enemy_attacks

/-- The acceptance predicate of one random candidate cell in
`Game._find_admin_spawn_position`: walkable, beyond Chebyshev distance
15 from the intruder, unoccupied, and free of features. -/
def Game.adminCandidateOk (g : Game) (position : Position) : Bool :=
  g.game_map.is_valid_position position &&
  position.distance_to g.player.position > 15 &&
  (g.get_enemy_at position).isNone &&
  ¬ g.game_map.data_patches.any (fun e => e.1 = (position.x, position.y)) &&
  ¬ g.game_map.cooling_nodes.contains (position.x, position.y) &&
  ¬ g.game_map.cpu_recovery_nodes.contains (position.x, position.y)

/-- The bounded candidate loop of `Game._find_admin_spawn_position`
(`for _ in range(50)` with two `randint(5, 45)` draws per attempt). -/
def Game.adminSpawnSearch (g : Game) : Nat → Rng → Option Position × Rng
  | 0, r => (none, r)
  | n + 1, r =>
    let (x, r) := randint 5 (MAP_WIDTH - 5) r
    let (y, r) := randint 5 (MAP_HEIGHT - 5) r
    let position : Position := ⟨x, y⟩
    if g.adminCandidateOk position then (some position, r)
    else g.adminSpawnSearch n r

/-- `Game._find_admin_spawn_position`: 50 random candidates, then the
fixed fallback cell `(MAP_WIDTH-10, MAP_HEIGHT-10)`, then the literal
`Position(40, 40)` (the Python function always returns a position). -/
def Game.find_admin_spawn_position (g : Game) : Position × Rng :=
  match g.adminSpawnSearch 50 g.rng with
  | (some p, r) => (p, r)
  | (none, r) =>
    let fallback : Position := ⟨MAP_WIDTH - 10, MAP_HEIGHT - 10⟩
    if g.game_map.is_valid_position fallback then (fallback, r) else (⟨40, 40⟩, r)

/-- `Game._spawn_admin_avatar`: guarded by the one-shot flag; the new
admin starts Hostile with last-known-position set to the intruder's
current cell.  (Python's `if spawn_position:` is always true since a
`Position` object is truthy.) -/
def Game.spawn_admin_avatar (g : Game) : Game :=
  if g.admin_spawned then g
  else
    let (spawn_position, r) := g.find_admin_spawn_position
    let g := { g with rng := r }
    let admin := { Enemy.init spawn_position .admin with
      state := .hostile, last_seen_player := some g.player.position }
    let g := { g with enemies := g.enemies ++ [admin], admin_spawned := true }
    g.add_message .adminAvatarSpawned

/-- `Game._check_admin_spawn`: spawn when detection has reached the
level threshold, the one-shot flag is clear, and no admin exists. -/
def Game.check_admin_spawn (g : Game) : Game :=
  let spawn_threshold := adminSpawnThreshold g.level
  if g.player.detection ≥ spawn_threshold ∧ ¬ g.admin_spawned ∧
      ¬ g.enemies.any (fun e => e.type = .admin) then
    g.spawn_admin_avatar
  else g

/-- Turn-scheduler step (1): advance the turn counter. -/
def Game.advanceTurn (g : Game) : Game :=
  { g with turn := g.turn + 1 }

/-- Turn-scheduler step (2): decay the intruder's timed effects. -/
def Game.updateEffectsStep (g : Game) : Game :=
  { g with player := g.player.update_effects }

/-- Turn-scheduler step (3): cool heat by 3 while the
exploit-efficiency effect is active, else 2, floored at 0. -/
def Game.coolHeatStep (g : Game) : Game :=
  let heat_reduction : Int := if g.player.exploit_efficiency_turns > 0 then 3 else 2
  { g with player := { g.player with heat := max 0 (g.player.heat - heat_reduction) } }

/-- Turn-scheduler step (8): the passive detection trickle, +1 clamped
at 100 whenever the turn counter is a multiple of 15. -/
def Game.passiveDetectionStep (g : Game) : Game :=
  if g.turn % 15 = 0 then
    { g with player := { g.player with detection := min 100 (g.player.detection + 1) } }
  else g

/-- `Game.process_turn`: the complete per-turn sequence, written as the
straight-line body of the source. -/
def Game.process_turn (g : Game) : Game :=
  let g := { g with turn := g.turn + 1 }
  let g := { g with player := g.player.update_effects }
  let heat_reduction : Int := if g.player.exploit_efficiency_turns > 0 then 3 else 2
  let g := { g with player := { g.player with heat := max 0 (g.player.heat - heat_reduction) } }
  let g := g.update_network_scan
  let g := g.process_special_tiles
  let g := g.update_enemies
  let g := g.check_admin_spawn
  if g.turn % 15 = 0 then
    { g with player := { g.player with detection := min 100 (g.player.detection + 1) } }
  else g

/-- `Game._reset_player_state` -/
def Game.reset_player_state (g : Game) (x y : Int) : Game :=
  { g with player := { g.player with
    position := ⟨x, y⟩
    cpu := g.player.max_cpu
    heat := 0
    detection := 0
    data_mimic_turns := 0
    speed_boost_turns := 0
    enhanced_vision_turns := 0
    exploit_efficiency_turns := 0 } }

/-- The player-state portion of `Game._generate_procedural_level`
(the level transition): reset to spawn, then carry detection and heat
over with the fixed reductions `max(0, det-20)` / `max(0, heat-30)`. -/
def Game.level_transition_player_reset (g : Game) : Game :=
  let g := g.reset_player_state 5 5
  let g := { g with player := { g.player with
    detection := max 0 (g.player.detection - 20) } }
  { g with player := { g.player with heat := max 0 (g.player.heat - 30) } }

/-- `DataPatch._apply_effect`: the six data-patch effects (the per-colour
lookup of `data_patch_effects` resolves to one of these keys).  The
Python function always returns `True`. -/
def Game.apply_effect (g : Game) (effect_key : EffectKey) : Game :=
  match effect_key with
  | .restore_cpu =>
    let (restore, r) := randint 30 40 g.rng
    let actual := min restore (g.player.max_cpu - g.player.cpu)
    let g := { g with rng := r, player := { g.player with cpu := g.player.cpu + actual } }
    g.add_message (.cpuRestored actual)
  | .reduce_heat =>
    let old_heat := g.player.heat
    let g := { g with player := { g.player with heat := max 0 (g.player.heat - 40) } }
    g.add_message (.heatReduced (old_heat - g.player.heat))
  | .reduce_detection =>
    let old_detection := g.player.detection
    let g := { g with player := { g.player with
      detection := max 0 (g.player.detection - 25) } }
    g.add_message (.detectionReduced (old_detection - g.player.detection))
  | .speed_boost =>
    ({ g with player := { g.player with speed_boost_turns := 10 } }).add_message
      .speedBoostActive
  | .enhanced_vision =>
    ({ g with player := { g.player with enhanced_vision_turns := 15 } }).add_message
      .enhancedVisionActive
  | .exploit_efficiency =>
    ({ g with player := { g.player with exploit_efficiency_turns := 8 } }).add_message
      .exploitEfficiencyActive

/-- Replace the first occurrence of `a` in a list (models in-place
mutation of the found enemy object). -/
def replaceFirst {α : Type} [DecidableEq α] : List α → α → α → List α
  | [], _, _ => []
  | x :: xs, a, b => if x = a then b :: xs else x :: replaceFirst xs a b

/-- `ExploitSystem._calculate_heat_cost`: `int(heat * 0.6)` under the
efficiency effect.  On every heat value of the catalog (5..40, all
multiples of 5) the double-precision product `heat * 0.6` rounds to the
exact value, so the truncation equals `heat * 3 / 5`. -/
def calculate_heat_cost (p : Player) (exploit : ExploitDefinition) : Int :=
  if p.exploit_efficiency_turns > 0 then exploit.heat * 3 / 5 else exploit.heat

/-- `ExploitSystem._validate_target`: in-bounds and within exploit range. -/
def Game.validate_target (g : Game) (exploit : ExploitDefinition)
    (target : Position) : Game × Bool :=
  if ¬ target.is_valid MAP_WIDTH MAP_HEIGHT then
    (g.add_message .invalidTargetLocation, false)
  else
    let distance := g.player.position.distance_to target
    if distance > exploit.range then (g.add_message (.outOfRange exploit.range), false)
    else (g, true)

/-- `ExploitSystem._execute_shadow_step`: teleport to a shadow,
walkable, unoccupied target cell. -/
def Game.execute_shadow_step (g : Game) (target : Position) : Game × Bool :=
  if g.game_map.is_shadow target && g.game_map.is_valid_position target then
    if (g.get_enemy_at target).isNone then
      let g := { g with player := { g.player with position := target } }
      (g.add_message .shadowStepExecuted, true)
    else (g.add_message .targetOccupied, false)
  else (g.add_message .mustTargetShadowZone, false)

/-- `ExploitSystem._execute_data_mimic` -/
def Game.execute_data_mimic (g : Game) : Game × Bool :=
  let g := { g with player := { g.player with data_mimic_turns := 5 } }
  (g.add_message .dataMimicActive, true)

/-- `ExploitSystem._execute_noise_maker`: alert nearby seek/random/patrol
enemies and count them. -/
def Game.execute_noise_maker (g : Game) (target : Position) : Game × Bool :=
  let step := fun (acc : List Enemy × Int) (e : Enemy) =>
    if (e.type_data.movement = .seek ∨ e.type_data.movement = .random ∨
        e.type_data.movement = .linear) ∧ e.position.distance_to target ≤ 10 then
      if e.type_data.movement = .linear then
        (acc.1 ++ [{ e with state := .alert, alert_timer := 3 }], acc.2 + 1)
      else
        (acc.1 ++
          [{ e with last_seen_player := some target, state := .alert, alert_timer := 2 }],
          acc.2 + 1)
    else (acc.1 ++ [e], acc.2)
  let (es, attracted) := g.enemies.foldl step ([], 0)
  let g := { g with enemies := es }
  (g.add_message (.noiseAttracted attracted), true)

/-- `ExploitSystem._execute_code_injection`: ranged attack; 35 damage
against firewalls, 30 otherwise; elimination removes the enemy and
heals 5 cpu (capped); survivors turn Hostile with last-seen stamped. -/
def Game.execute_code_injection (g : Game) (target : Position) : Game × Bool :=
  match g.get_enemy_at target with
  | some target_enemy =>
    let damage : Int := if target_enemy.type = .firewall then 35 else 30
    let (te', destroyed) := target_enemy.take_damage damage
    if destroyed then
      let g := { g with enemies := g.enemies.erase target_enemy }
      let g := { g with player := { g.player with
        cpu := min g.player.max_cpu (g.player.cpu + 5) } }
      (g.add_message (.eliminatedEnemy target_enemy.type), true)
    else
      let te'' :=
        { te' with state := .hostile, last_seen_player := some g.player.position }
      let g := { g with enemies := replaceFirst g.enemies target_enemy te'' }
      (g.add_message (.damagedEnemy target_enemy.type), true)
  | none => (g.add_message .noTargetAtLocation, false)

/-- `ExploitSystem._execute_buffer_overflow`: adjacent-only melee for 50
damage, same elimination/survivor handling as code injection. -/
def Game.execute_buffer_overflow (g : Game) (target : Position) : Game × Bool :=
  let distance := g.player.position.distance_to target
  if distance ≤ 1 then
    match g.get_enemy_at target with
    | some target_enemy =>
      let damage : Int := 50
      let (te', destroyed) := target_enemy.take_damage damage
      if destroyed then
        let g := { g with enemies := g.enemies.erase target_enemy }
        let g := { g with player := { g.player with
          cpu := min g.player.max_cpu (g.player.cpu + 5) } }
        (g.add_message (.eliminatedEnemy target_enemy.type), true)
      else
        let te'' :=
          { te' with state := .hostile, last_seen_player := some g.player.position }
        let g := { g with enemies := replaceFirst g.enemies target_enemy te'' }
        (g.add_message (.damagedEnemy target_enemy.type), true)
    | none => (g.add_message .noEnemyAtTarget, false)
  else (g.add_message .mustTargetAdjacentEnemy, false)

/-- `ExploitSystem._execute_system_crash`: disable every enemy within
range of the target for 4 turns. -/
def Game.execute_system_crash (g : Game) (target : Position)
    (exploit_range : Int) : Game × Bool :=
  let hit := fun (e : Enemy) => e.position.distance_to target ≤ exploit_range
  let es := g.enemies.map (fun e =>
    if hit e then { e with disabled_turns := 4, state := .unaware, alert_timer := 0 }
    else e)
  let g := { g with enemies := es }
  (g.add_message (.systemCrashDisabled ((g.enemies.filter hit).length : Int)), true)

/-- `ExploitSystem._execute_network_scan` -/
def Game.execute_network_scan (g : Game) : Game × Bool :=
  let g := { g with show_patrols := true, network_scan_turns := 15 }
  (g.add_message .networkScanActive, true)

/-- `ExploitSystem._execute_log_wiper`: detection reduced by 30,
clamped at 0. -/
def Game.execute_log_wiper (g : Game) : Game × Bool :=
  let old_detection := g.player.detection
  let g := { g with player := { g.player with
    detection := max 0 (g.player.detection - 30) } }
  (g.add_message (.detectionReduced (old_detection - g.player.detection)), true)

/-- `ExploitSystem._execute_emp_burst`: disable every enemy within range
of the target for 6 turns. -/
def Game.execute_emp_burst (g : Game) (target : Position)
    (exploit_range : Int) : Game × Bool :=
  let hit := fun (e : Enemy) => e.position.distance_to target ≤ exploit_range
  let es := g.enemies.map (fun e =>
    if hit e then { e with disabled_turns := 6, state := .unaware, alert_timer := 0 }
    else e)
  let g := { g with enemies := es }
  (g.add_message (.empDisabled ((g.enemies.filter hit).length : Int)), true)

/-- `ExploitSystem._execute_specific_exploit` -/
def Game.execute_specific_exploit (g : Game) (exploit_key : ExploitKey)
    (exploit : ExploitDefinition) (target : Position) : Game × Bool :=
  match exploit_key with
  | .shadow_step => g.execute_shadow_step target
  | .data_mimic => g.execute_data_mimic
  | .noise_maker => g.execute_noise_maker target
  | .code_injection => g.execute_code_injection target
  | .buffer_overflow => g.execute_buffer_overflow target
  | .system_crash => g.execute_system_crash target exploit.range
  | .network_scan => g.execute_network_scan
  | .log_wiper => g.execute_log_wiper
  | .emp_burst => g.execute_emp_burst target exploit.range

/-- `ExploitSystem.execute_exploit`: validate the target, apply the heat
cost, run the specific exploit, and on success clear targeting state and
drive the Turn Scheduler.  (The Python `exploit_key not in EXPLOITS`
guard is vacuous here because `ExploitKey` enumerates the catalog.) -/
def Game.execute_exploit (g : Game) (exploit_key : ExploitKey)
    (target : Position) : Game × Bool :=
  let exploit := EXPLOITS exploit_key
  let (g, ok) := g.validate_target exploit target
  if ¬ ok then (g, false)
  else
    let heat_cost := calculate_heat_cost g.player exploit
    let g := { g with player := { g.player with
      heat := min 100 (g.player.heat + heat_cost) } }
    let (g, success) := g.execute_specific_exploit exploit_key exploit target
    if success then
      let g := { g with targeting_mode := false, targeting_exploit := none }
      (g.process_turn, true)
    else (g, false)

/-- `ExploitSystem.use_exploit`: equipped check, heat-limit check, then
either enter targeting mode or execute immediately at the intruder's
cell. -/
def Game.use_exploit (g : Game) (exploit_key : ExploitKey) : Game × Bool :=
  if ¬ g.player.equipped_exploits.contains exploit_key then
    (g.add_message .exploitNotEquipped, false)
  else
    let exploit := EXPLOITS exploit_key
    let heat_cost := calculate_heat_cost g.player exploit
    if g.player.heat + heat_cost > 100 then (g.add_message .systemTooHot, false)
    else if ¬ exploit.targeting = .none ∧ exploit.range > 0 then
      let g :=
        { g with
          targeting_mode := true
          targeting_exploit := some exploit_key
          cursor_position := g.player.position }
      (g.add_message (.targetingExploitMsg exploit_key), true)
    else g.execute_exploit exploit_key g.player.position

/-! ### Auxiliary definitions for the claim statements -/

/-- Spec-side predicate (follows the spec's words, for the hypothesis of
the line-of-sight symmetry claim): a wall configuration has a
single-cell diagonal gap when two wall cells touch only diagonally and
both cells across the shared corner are open.  `true` means no such gap
exists. -/
def GameMap.noSingleCellDiagonalGaps (m : GameMap) : Bool :=
  m.walls.all fun w1 => m.walls.all fun w2 =>
    if (w2.1 - w1.1).natAbs = 1 ∧ (w2.2 - w1.2).natAbs = 1 then
      m.walls.contains (w1.1, w2.2) || m.walls.contains (w2.1, w1.2)
    else true

/-- Straight-line cell walk with a constant unit step `(ux, uy)`: the
form the Bresenham loop takes on horizontal, vertical and exact-diagonal
segments (where its error term is invariant). -/
def scanDir (m : GameMap) (ex ey ux uy : Int) : Nat → Int → Int → Bool
  | 0, _, _ => false
  | fuel + 1, x, y =>
    if x = ex ∧ y = ey then true
    else if m.is_wall ⟨x, y⟩ then false
    else scanDir m ex ey ux uy fuel (x + ux) (y + uy)

/-- Equality of two game states on every field except the message log
(the log carries the reported failure reason, which is not game state). -/
def sameExceptMessages (g g' : Game) : Prop :=
  g'.player = g.player ∧ g'.enemies = g.enemies ∧ g'.game_map = g.game_map ∧
  g'.level = g.level ∧ g'.turn = g.turn ∧ g'.game_over = g.game_over ∧
  g'.admin_spawned = g.admin_spawned ∧ g'.show_patrols = g.show_patrols ∧
  g'.network_scan_turns = g.network_scan_turns ∧
  g'.targeting_mode = g.targeting_mode ∧
  g'.targeting_exploit = g.targeting_exploit ∧
  g'.cursor_position = g.cursor_position ∧ g'.rng = g.rng

/-- The admin enemy built by `Game._spawn_admin_avatar` at a given cell. -/
def spawnedAdmin (g : Game) (spawn_position : Position) : Enemy :=
  { Enemy.init spawn_position .admin with
    state := .hostile, last_seen_player := some g.player.position }

/-! ### Concrete states used by counterexamples and witnesses -/

/-- A featureless 50×50 map with no walls. -/
def emptyMap : GameMap :=
  { width := 50, height := 50, walls := [], shadows := [],
    cooling_nodes := [], cpu_recovery_nodes := [], data_patches := [], gateway := none }

/-- A minimal game state: intruder at the (5,5) spawn, no enemies,
level 1, turn 0, empty oracle stream. -/
def baseGame : Game :=
  { player := Player.init 5 5, enemies := [], game_map := emptyMap, messages := [],
    level := 1, turn := 0, game_over := false, admin_spawned := false,
    show_patrols := false, network_scan_turns := 0, targeting_mode := false,
    targeting_exploit := none, cursor_position := ⟨0, 0⟩, rng := [] }

/-- C1 input: a 20×20 map whose only shadow tile is (10,11). -/
def c1_map : GameMap :=
  { width := 20, height := 20, walls := [], shadows := [(10, 11)],
    cooling_nodes := [], cpu_recovery_nodes := [], data_patches := [], gateway := none }

/-- C1 input: the intruder standing on the shadow tile (10,11), with no
active effects (in particular not invisible). -/
def c1_player : Player := Player.init 10 11

/-- C1 input: a scanner sentinel at (10,10), adjacent to the intruder. -/
def c1_enemy : Enemy := Enemy.init ⟨10, 10⟩ .scanner

/-- C2 input: a 50×50 map whose only wall cell is (1,0) — a lone wall,
so no single-cell diagonal gap exists. -/
def c2_map : GameMap :=
  { width := 50, height := 50, walls := [(1, 0)], shadows := [],
    cooling_nodes := [], cpu_recovery_nodes := [], data_patches := [], gateway := none }

/-- C4 counterexample state: detection at the level-1 threshold, no
admin, a wall at the fallback cell (40,40), and an oracle stream that
makes every random candidate the intruder's own cell (distance 0, hence
rejected 50 times). -/
def c4_game : Game :=
  { baseGame with
    player := { baseGame.player with detection := 90 }
    game_map := { emptyMap with walls := [(40, 40)] } }

/-- C6 scenario state: detection 89, threshold-90 level, turn 0, and an
oracle stream that yields the candidate cell (30,30) for the eventual
admin spawn. -/
def c6_game : Game :=
  { baseGame with player := { baseGame.player with detection := 89 }, rng := [25, 25] }

/-- C6 cadence probe at level 3 (hardest): otherwise identical to
`baseGame`. -/
def c6_level3_game : Game := { baseGame with level := 3 }

/-- C5 input: detection 80 at level 2 (threshold 75); oracle yields the
candidate (30,30). -/
def c5_level2_game : Game :=
  { baseGame with
    level := 2
    player := { baseGame.player with detection := 80 }
    rng := [25, 25] }

/-- C5 input: the same state at level 1 (threshold 90). -/
def c5_level1_game : Game :=
  { baseGame with player := { baseGame.player with detection := 80 }, rng := [25, 25] }

/-- C4 witness state: detection 90 at level 1 with candidate oracle
`[25, 25]` (first random candidate (30,30) is accepted). -/
def c4_search_game : Game :=
  { baseGame with player := { baseGame.player with detection := 90 }, rng := [25, 25] }

/-- C8 witness state: the base game with heat 95, so every exploit's
heat cost would exceed the 100 budget. -/
def c8_hot_game : Game :=
  { baseGame with player := { baseGame.player with heat := 95 } }

/-- C9 witness input: a disabled bot sentinel. -/
def c9_enemy : Enemy := { Enemy.init ⟨8, 8⟩ .bot with disabled_turns := 3 }

/-! ### Theorems -/

/-- C1: the spec (and the repository's own stealth test) require an
adjacent, non-invisible intruder to be observed regardless of shadow;
at the failing input — scanner sentinel at (10,10), intruder at (10,11)
on a shadow tile, Chebyshev distance 1, not invisible —
`Enemy.can_see_player` nevertheless returns false, because the code's
target-in-shadow check has no adjacency exception. -/
theorem C1_adjacent_shadow_intruder_not_seen :
    c1_enemy.position.distance_to c1_player.position = 1 ∧
    c1_player.is_invisible = false ∧
    c1_map.is_shadow c1_player.position = true ∧
    c1_enemy.can_see_player c1_player c1_map = false := by decide

/-- C5 counterexample: the spawn threshold is not one fixed value — the
level-1 and level-2 thresholds differ (90 vs 75), and one and the same
detection value (80) spawns the admin on level 2 but not on level 1. -/
theorem C5_counterexample_threshold_not_fixed :
    adminSpawnThreshold 1 = 90 ∧ adminSpawnThreshold 2 = 75 ∧
    c5_level1_game.player.detection = 80 ∧ c5_level2_game.player.detection = 80 ∧
    (c5_level2_game.check_admin_spawn.enemies.filter
      (fun e => e.type = EnemyType.admin)).length = 1 ∧
    (c5_level1_game.check_admin_spawn.enemies.filter
      (fun e => e.type = EnemyType.admin)).length = 0 := by decide

/-- C5 (amended): the detection threshold that triggers the boss spawn
is a per-level value — 90, 75, 60 on levels 1–3 and 50 on any other
level — and `Game._check_admin_spawn` does nothing while detection is
below the current level's threshold. -/
theorem C5_amended_threshold_is_per_level :
    adminSpawnThreshold 1 = 90 ∧ adminSpawnThreshold 2 = 75 ∧
    adminSpawnThreshold 3 = 60 ∧
    (∀ level : Int, ¬ level = 1 → ¬ level = 2 → ¬ level = 3 →
      adminSpawnThreshold level = 50) ∧
    (∀ g : Game, g.player.detection < adminSpawnThreshold g.level →
      g.check_admin_spawn = g) := by
  refine ⟨rfl, rfl, rfl, ?_, ?_⟩
  · intro level h1 h2 h3
    simp [adminSpawnThreshold, h1, h2, h3]
  · intro g h
    unfold Game.check_admin_spawn
    rw [if_neg]
    intro hc
    exact absurd hc.1 (not_le.mpr h)

/-- Witness for C5: the amended theorem applied at level 7 and at the
concrete level-1 state with detection 80 < 90. -/
theorem C5_amended_witness :
    adminSpawnThreshold 7 = 50 ∧ c5_level1_game.check_admin_spawn = c5_level1_game :=
  ⟨C5_amended_threshold_is_per_level.2.2.2.1 7 (by decide) (by decide) (by decide),
   C5_amended_threshold_is_per_level.2.2.2.2 c5_level1_game (by decide)⟩

/-- C6 counterexample: the passive trickle cadence is not a per-level
parameter — starting from detection 0 at turn 0, the first +1 arrives
exactly at turn 15 both on level 1 (easiest) and on level 3 (hardest),
refuting "smaller N on harder levels". -/
theorem C6_counterexample_cadence_not_per_level :
    ((Game.process_turn)^[14] c6_level3_game).player.detection = 0 ∧
    ((Game.process_turn)^[15] c6_level3_game).player.detection = 1 ∧
    ((Game.process_turn)^[14] baseGame).player.detection = 0 ∧
    ((Game.process_turn)^[15] baseGame).player.detection = 1 := by decide

/-- C6 (amended): the Scheduler's passive trickle is +1 every 15 turns,
the same on every level (the step is independent of the level field and
adds `min 100 (detection + 1)` exactly when the turn counter is a
multiple of 15); the claim's scenario holds with this fixed cadence:
from detection 89 at turn 0 on the threshold-90 level, after 15 turns
detection is 90 with no boss yet, and the 16th Scheduler run spawns
exactly one boss while detection stays 90. -/
theorem C6_amended_fixed_cadence_and_scenario :
    (∀ (g : Game) (l : Int),
      ({ g with level := l } : Game).passiveDetectionStep.player.detection =
        g.passiveDetectionStep.player.detection) ∧
    (∀ g : Game, g.passiveDetectionStep.player.detection =
      if g.turn % 15 = 0 then min 100 (g.player.detection + 1)
      else g.player.detection) ∧
    ((Game.process_turn)^[15] c6_game).player.detection = 90 ∧
    (((Game.process_turn)^[15] c6_game).enemies.filter
      (fun e => e.type = EnemyType.admin)).length = 0 ∧
    (((Game.process_turn)^[16] c6_game).enemies.filter
      (fun e => e.type = EnemyType.admin)).length = 1 ∧
    ((Game.process_turn)^[16] c6_game).player.detection = 90 := by
  refine ⟨?_, ?_, by decide, by decide, by decide, by decide⟩
  · intro g l
    unfold Game.passiveDetectionStep
    split <;> rfl
  · intro g
    unfold Game.passiveDetectionStep
    split <;> rfl

/-- C4 counterexample: with detection at the threshold, no admin, every
random candidate rejected (the oracle makes each candidate the
intruder's own cell) and a wall on the fixed fallback cell (40,40),
`Game._check_admin_spawn` spawns the admin inside that wall cell. -/
theorem C4_counterexample_fallback_spawns_in_wall :
    c4_game.player.detection ≥ adminSpawnThreshold c4_game.level ∧
    c4_game.admin_spawned = false ∧ c4_game.enemies = [] ∧
    c4_game.game_map.is_wall ⟨40, 40⟩ = true ∧
    (c4_game.check_admin_spawn.enemies.map (fun e => e.position)) = [⟨40, 40⟩] ∧
    c4_game.check_admin_spawn.admin_spawned = true := by decide

/-- C8 counterexample: a Shadow Step aimed at a non-shadow cell fails
with the reported reason "must target shadow zone", yet the intruder's
heat has been raised from 0 to the full 20-point heat cost — the heat
mutation precedes the exploit-specific target validation. -/
theorem C8_counterexample_failed_shadow_step_mutates_heat :
    baseGame.player.heat = 0 ∧
    (baseGame.execute_exploit .shadow_step ⟨6, 5⟩).2 = false ∧
    (baseGame.execute_exploit .shadow_step ⟨6, 5⟩).1.messages =
      [Msg.mustTargetShadowZone] ∧
    (baseGame.execute_exploit .shadow_step ⟨6, 5⟩).1.player.heat = 20 := by decide

/-! ### Helper lemmas -/

theorem foldl_invariant {α σ : Type} (f : σ → α → σ) (P : σ → Prop)
    (l : List α) (s : σ) (h0 : P s) (hstep : ∀ s a, P s → P (f s a)) :
    P (l.foldl f s) := by
  induction l generalizing s with
  | nil => exact h0
  | cons a t ih => exact ih _ (hstep _ _ h0)

@[simp] theorem add_message_player (g : Game) (m : Msg) :
    (g.add_message m).player = g.player := rfl

@[simp] theorem add_message_enemies (g : Game) (m : Msg) :
    (g.add_message m).enemies = g.enemies := rfl

@[simp] theorem add_message_game_map (g : Game) (m : Msg) :
    (g.add_message m).game_map = g.game_map := rfl

@[simp] theorem add_message_turn (g : Game) (m : Msg) :
    (g.add_message m).turn = g.turn := rfl

@[simp] theorem add_message_level (g : Game) (m : Msg) :
    (g.add_message m).level = g.level := rfl

@[simp] theorem add_message_game_over (g : Game) (m : Msg) :
    (g.add_message m).game_over = g.game_over := rfl

@[simp] theorem add_message_admin_spawned (g : Game) (m : Msg) :
    (g.add_message m).admin_spawned = g.admin_spawned := rfl

@[simp] theorem add_message_show_patrols (g : Game) (m : Msg) :
    (g.add_message m).show_patrols = g.show_patrols := rfl

@[simp] theorem add_message_network_scan_turns (g : Game) (m : Msg) :
    (g.add_message m).network_scan_turns = g.network_scan_turns := rfl

@[simp] theorem add_message_targeting_mode (g : Game) (m : Msg) :
    (g.add_message m).targeting_mode = g.targeting_mode := rfl

@[simp] theorem add_message_targeting_exploit (g : Game) (m : Msg) :
    (g.add_message m).targeting_exploit = g.targeting_exploit := rfl

@[simp] theorem add_message_cursor_position (g : Game) (m : Msg) :
    (g.add_message m).cursor_position = g.cursor_position := rfl

@[simp] theorem add_message_rng (g : Game) (m : Msg) :
    (g.add_message m).rng = g.rng := rfl

theorem handle_enemy_sees_player_turn (g : Game) (e : Enemy) :
    (g.handle_enemy_sees_player e).1.turn = g.turn := by
  unfold Game.handle_enemy_sees_player
  cases e.state <;> simp <;> split <;> simp

theorem handle_enemy_loses_player_turn (g : Game) (e : Enemy) :
    (g.handle_enemy_loses_player e).1.turn = g.turn := by
  unfold Game.handle_enemy_loses_player
  cases e.state <;> simp <;> split <;> (try split) <;> simp

theorem awarenessStep_turn (acc : Game × List Enemy) (e : Enemy) :
    (Game.awarenessStep acc e).1.turn = acc.1.turn := by
  obtain ⟨gs, ds⟩ := acc
  unfold Game.awarenessStep
  simp only
  split
  · have h := handle_enemy_sees_player_turn gs e
    cases hp : gs.handle_enemy_sees_player e
    rw [hp] at h
    simpa using h
  · have h := handle_enemy_loses_player_turn gs e
    cases hp : gs.handle_enemy_loses_player e
    rw [hp] at h
    simpa using h

theorem update_enemy_awareness_turn (g : Game) :
    g.update_enemy_awareness.turn = g.turn := by
  unfold Game.update_enemy_awareness
  have h := foldl_invariant Game.awarenessStep
    (fun acc => acc.1.turn = g.turn) g.enemies (g, []) rfl
    (fun s a hs => by
      show (Game.awarenessStep s a).1.turn = g.turn
      rw [awarenessStep_turn]; exact hs)
  split
  next g1 es heq => rw [heq] at h; exact h

theorem move_enemies_turn (g : Game) : g.move_enemies.turn = g.turn := by
  unfold Game.move_enemies
  split
  rfl

theorem attackStep_turn (g : Game) (e : Enemy) :
    (Game.attackStep g e).turn = g.turn := by
  unfold Game.attackStep
  split <;> (try simp only []) <;> (try split) <;> (try simp only []) <;> (try split) <;> simp

theorem process_enemy_attacks_turn (g : Game) :
    g.process_enemy_attacks.turn = g.turn := by
  unfold Game.process_enemy_attacks
  exact foldl_invariant Game.attackStep (fun x => x.turn = g.turn) g.enemies g rfl
    (fun s a hs => by
      show (Game.attackStep s a).turn = g.turn
      rw [attackStep_turn]; exact hs)

theorem update_enemies_turn (g : Game) : g.update_enemies.turn = g.turn := by
  unfold Game.update_enemies
  rw [process_enemy_attacks_turn, move_enemies_turn, update_enemy_awareness_turn]

theorem update_network_scan_turn (g : Game) :
    g.update_network_scan.turn = g.turn := by
  unfold Game.update_network_scan
  split <;> (try simp only []) <;> (try split) <;> simp

theorem process_special_tiles_turn (g : Game) :
    g.process_special_tiles.turn = g.turn := by
  unfold Game.process_special_tiles
  split <;> (try simp only []) <;> (try split) <;> (try simp only []) <;> (try split) <;>
    (try simp only []) <;> (try split) <;> (try simp only []) <;> (try split) <;>
    (try simp only []) <;> (try split) <;> simp

theorem find_admin_spawn_position_pair (g : Game) :
    g.find_admin_spawn_position =
      (g.find_admin_spawn_position.1, g.find_admin_spawn_position.2) := rfl

theorem spawn_admin_avatar_turn (g : Game) :
    g.spawn_admin_avatar.turn = g.turn := by
  unfold Game.spawn_admin_avatar
  split <;> (try simp only []) <;> (try split) <;> simp

theorem check_admin_spawn_turn (g : Game) :
    g.check_admin_spawn.turn = g.turn := by
  unfold Game.check_admin_spawn
  simp only []
  split
  · exact spawn_admin_avatar_turn g
  · rfl

theorem passiveDetectionStep_turn (g : Game) :
    g.passiveDetectionStep.turn = g.turn := by
  unfold Game.passiveDetectionStep
  split <;> rfl

theorem advanceTurn_turn (g : Game) : g.advanceTurn.turn = g.turn + 1 := rfl

theorem updateEffectsStep_turn (g : Game) : g.updateEffectsStep.turn = g.turn := rfl

theorem coolHeatStep_turn (g : Game) : g.coolHeatStep.turn = g.turn := rfl

set_option maxHeartbeats 1600000 in
theorem process_turn_factorization (g : Game) :
    g.process_turn =
      Game.passiveDetectionStep (Game.check_admin_spawn (Game.update_enemies
        (Game.process_special_tiles (Game.update_network_scan (Game.coolHeatStep
          (Game.updateEffectsStep (Game.advanceTurn g))))))) := rfl

/-- C7: each `Game.process_turn` call is exactly the ordered sequence
turn-advance, timed-effect decay (floor 0), heat cooldown (3 with the
efficiency effect active after decay, else 2, floor 0), scan-timer decay
with the expiry notice exactly on reaching zero, special-tile effects,
sentinel updates, boss-spawn check, then the passive detection trickle;
in particular the turn counter advances by exactly one. -/
theorem C7_process_turn_ordered_sequence :
    (∀ g : Game, g.process_turn =
      Game.passiveDetectionStep (Game.check_admin_spawn (Game.update_enemies
        (Game.process_special_tiles (Game.update_network_scan (Game.coolHeatStep
          (Game.updateEffectsStep (Game.advanceTurn g)))))))) ∧
    (∀ g : Game, g.process_turn.turn = g.turn + 1) ∧
    (∀ p : Player,
      p.update_effects.data_mimic_turns = max 0 (p.data_mimic_turns - 1) ∧
      p.update_effects.speed_boost_turns = max 0 (p.speed_boost_turns - 1) ∧
      p.update_effects.enhanced_vision_turns = max 0 (p.enhanced_vision_turns - 1) ∧
      p.update_effects.exploit_efficiency_turns =
        max 0 (p.exploit_efficiency_turns - 1)) ∧
    (∀ g : Game, g.advanceTurn.updateEffectsStep.coolHeatStep.player.heat =
      max 0 (g.player.heat -
        (if max 0 (g.player.exploit_efficiency_turns - 1) > 0 then 3 else 2))) ∧
    (∀ g : Game, g.update_network_scan.network_scan_turns =
      if g.network_scan_turns > 0 then g.network_scan_turns - 1
      else g.network_scan_turns) ∧
    (∀ g : Game, g.update_network_scan.messages =
      if g.network_scan_turns = 1 then (g.add_message Msg.networkScanExpired).messages
      else g.messages) := by
  refine ⟨process_turn_factorization, ?_, fun p => ⟨rfl, rfl, rfl, rfl⟩,
    fun g => rfl, ?_, ?_⟩
  · intro g
    rw [process_turn_factorization g, passiveDetectionStep_turn, check_admin_spawn_turn, update_enemies_turn,
      process_special_tiles_turn, update_network_scan_turn, coolHeatStep_turn,
      updateEffectsStep_turn, advanceTurn_turn]
  · intro g
    unfold Game.update_network_scan
    split <;> (try simp only []) <;> (try split) <;> simp
  · intro g
    unfold Game.update_network_scan
    split
    · next h =>
      simp only []
      split
      · next h2 =>
        have : g.network_scan_turns = 1 := by omega
        rw [if_pos this]
        simp [Game.add_message]
      · next h2 =>
        have : ¬ g.network_scan_turns = 1 := by omega
        rw [if_neg this]
    · next h =>
      have : ¬ g.network_scan_turns = 1 := by omega
      rw [if_neg this]

/-- C3: every mutation of the detection scalar keeps it within [0, 100]:
the hostile-transition spike and continuous hostile trickle (both inside
`_handle_enemy_sees_player`), the passive trickle, the log-wiper
reduction, the data-patch reduction, and the level-transition reduction
(which in fact always lands on 0, since the transition first resets
detection to 0). -/
theorem C3_detection_stays_clamped :
    (∀ (g : Game) (e : Enemy), 0 ≤ g.player.detection → g.player.detection ≤ 100 →
      0 ≤ (g.handle_enemy_sees_player e).1.player.detection ∧
      (g.handle_enemy_sees_player e).1.player.detection ≤ 100) ∧
    (∀ g : Game, 0 ≤ g.player.detection → g.player.detection ≤ 100 →
      0 ≤ g.passiveDetectionStep.player.detection ∧
      g.passiveDetectionStep.player.detection ≤ 100) ∧
    (∀ g : Game, 0 ≤ g.player.detection → g.player.detection ≤ 100 →
      0 ≤ g.execute_log_wiper.1.player.detection ∧
      g.execute_log_wiper.1.player.detection ≤ 100) ∧
    (∀ g : Game, 0 ≤ g.player.detection → g.player.detection ≤ 100 →
      0 ≤ (g.apply_effect .reduce_detection).player.detection ∧
      (g.apply_effect .reduce_detection).player.detection ≤ 100) ∧
    (∀ g : Game, g.level_transition_player_reset.player.detection = 0) := by
  refine ⟨?_, ?_, ?_, ?_, ?_⟩
  · intro g e h0 h1
    unfold Game.handle_enemy_sees_player
    split <;> (try simp only []) <;> (try split) <;> (try simp only []) <;>
      (try split) <;> (try simp) <;> omega
  · intro g h0 h1
    unfold Game.passiveDetectionStep
    split <;> (try simp) <;> omega
  · intro g h0 h1
    unfold Game.execute_log_wiper
    simp only [add_message_player]
    omega
  · intro g h0 h1
    unfold Game.apply_effect
    simp only [add_message_player]
    omega
  · intro g
    unfold Game.level_transition_player_reset Game.reset_player_state
    simp

/-- Witness for C3: all five clamping statements applied at the concrete
base state (detection 0) and the C6 state (detection 89). -/
theorem C3_detection_witness :
    (0 ≤ (baseGame.handle_enemy_sees_player c1_enemy).1.player.detection ∧
      (baseGame.handle_enemy_sees_player c1_enemy).1.player.detection ≤ 100) ∧
    (0 ≤ c6_game.passiveDetectionStep.player.detection ∧
      c6_game.passiveDetectionStep.player.detection ≤ 100) ∧
    (0 ≤ c6_game.execute_log_wiper.1.player.detection ∧
      c6_game.execute_log_wiper.1.player.detection ≤ 100) ∧
    (0 ≤ (c6_game.apply_effect .reduce_detection).player.detection ∧
      (c6_game.apply_effect .reduce_detection).player.detection ≤ 100) ∧
    c6_game.level_transition_player_reset.player.detection = 0 :=
  ⟨C3_detection_stays_clamped.1 baseGame c1_enemy (by decide) (by decide),
   C3_detection_stays_clamped.2.1 c6_game (by decide) (by decide),
   C3_detection_stays_clamped.2.2.1 c6_game (by decide) (by decide),
   C3_detection_stays_clamped.2.2.2.1 c6_game (by decide) (by decide),
   C3_detection_stays_clamped.2.2.2.2 c6_game⟩

/-- C9: while a sentinel's disabled-turns counter is positive it
observes nothing, deals no contact damage, and its whole move action is
to decrement the counter by one — position, cooldown, patrol data and
the RNG stream are untouched. -/
theorem C9_disabled_sentinel_is_inert :
    ∀ (e : Enemy) (p : Player) (m : GameMap) (r : Rng), 0 < e.disabled_turns →
      e.can_see_player p m = false ∧
      e.can_attack_player p = false ∧
      e.move m p r = ({ e with disabled_turns := e.disabled_turns - 1 }, r) := by
  intro e p m r h
  refine ⟨?_, ?_, ?_⟩
  · unfold Enemy.can_see_player
    rw [if_pos h]
  · unfold Enemy.can_attack_player
    simp
    omega
  · unfold Enemy.move
    rw [if_pos h]

/-- Witness for C9: the inert-sentinel theorem at a concrete disabled
bot, the base intruder, the empty map and the empty oracle. -/
theorem C9_disabled_witness :
    c9_enemy.can_see_player (Player.init 5 5) emptyMap = false ∧
    c9_enemy.can_attack_player (Player.init 5 5) = false ∧
    c9_enemy.move emptyMap (Player.init 5 5) [] =
      ({ c9_enemy with disabled_turns := c9_enemy.disabled_turns - 1 }, []) :=
  C9_disabled_sentinel_is_inert c9_enemy (Player.init 5 5) emptyMap [] (by decide)

/-- C10: the intruder's integrity stays within [0, max_cpu]:
`Player.take_damage` clamps the removed amount to the current cpu and
returns it; the restore-node heal in `_process_special_tiles`, the
data-patch cpu restore, and the elimination bonuses of code injection
and buffer overflow all cap cpu at max_cpu. -/
theorem C10_cpu_stays_bounded :
    (∀ (p : Player) (damage : Int), 0 ≤ damage → 0 ≤ p.cpu → p.cpu ≤ p.max_cpu →
      0 ≤ (p.take_damage damage).1.cpu ∧ (p.take_damage damage).1.cpu ≤ p.max_cpu ∧
      (p.take_damage damage).2 = min damage p.cpu ∧
      (p.take_damage damage).1.cpu = p.cpu - (p.take_damage damage).2) ∧
    (∀ g : Game, 0 ≤ g.player.cpu → g.player.cpu ≤ g.player.max_cpu →
      0 ≤ g.process_special_tiles.player.cpu ∧
      g.process_special_tiles.player.cpu ≤ g.player.max_cpu) ∧
    (∀ g : Game, 0 ≤ g.player.cpu → g.player.cpu ≤ g.player.max_cpu →
      0 ≤ (g.apply_effect .restore_cpu).player.cpu ∧
      (g.apply_effect .restore_cpu).player.cpu ≤ g.player.max_cpu) ∧
    (∀ (g : Game) (target : Position),
      0 ≤ g.player.cpu → g.player.cpu ≤ g.player.max_cpu → 0 ≤ g.player.max_cpu →
      0 ≤ (g.execute_code_injection target).1.player.cpu ∧
      (g.execute_code_injection target).1.player.cpu ≤ g.player.max_cpu) ∧
    (∀ (g : Game) (target : Position),
      0 ≤ g.player.cpu → g.player.cpu ≤ g.player.max_cpu → 0 ≤ g.player.max_cpu →
      0 ≤ (g.execute_buffer_overflow target).1.player.cpu ∧
      (g.execute_buffer_overflow target).1.player.cpu ≤ g.player.max_cpu) := by
  refine ⟨?_, ?_, ?_, ?_, ?_⟩
  · intro p damage hd h0 h1
    unfold Player.take_damage
    refine ⟨?_, ?_, rfl, ?_⟩ <;> simp <;> omega
  · intro g h0 h1
    unfold Game.process_special_tiles
    split <;> (try simp only []) <;> (try split) <;> (try simp only []) <;>
      (try split) <;> (try simp only []) <;> (try split) <;> (try simp only []) <;>
      (try split) <;> (try simp only []) <;> (try split) <;> (try simp) <;> omega
  · intro g h0 h1
    unfold Game.apply_effect
    simp only [randint, add_message_player]
    omega
  · intro g target h0 h1 h2
    unfold Game.execute_code_injection
    split <;> (try simp only []) <;> (try split) <;> (try simp only []) <;>
      (try split) <;> (try simp) <;> omega
  · intro g target h0 h1 h2
    unfold Game.execute_buffer_overflow
    split <;> (try simp only []) <;> (try split) <;> (try simp only []) <;>
      (try split) <;> (try simp only []) <;> (try split) <;> (try simp) <;> omega

/-- Witness for C10: the bounds applied at concrete states — damage 7
against the base intruder, the base game on its special tiles, the
restore-cpu patch, and both attack exploits aimed at (6,5). -/
theorem C10_cpu_witness :
    (0 ≤ ((Player.init 5 5).take_damage 7).1.cpu ∧
      ((Player.init 5 5).take_damage 7).1.cpu ≤ (Player.init 5 5).max_cpu ∧
      ((Player.init 5 5).take_damage 7).2 = min 7 (Player.init 5 5).cpu ∧
      ((Player.init 5 5).take_damage 7).1.cpu =
        (Player.init 5 5).cpu - ((Player.init 5 5).take_damage 7).2) ∧
    (0 ≤ baseGame.process_special_tiles.player.cpu ∧
      baseGame.process_special_tiles.player.cpu ≤ baseGame.player.max_cpu) ∧
    (0 ≤ (baseGame.apply_effect .restore_cpu).player.cpu ∧
      (baseGame.apply_effect .restore_cpu).player.cpu ≤ baseGame.player.max_cpu) ∧
    (0 ≤ (baseGame.execute_code_injection ⟨6, 5⟩).1.player.cpu ∧
      (baseGame.execute_code_injection ⟨6, 5⟩).1.player.cpu ≤
        baseGame.player.max_cpu) ∧
    (0 ≤ (baseGame.execute_buffer_overflow ⟨6, 5⟩).1.player.cpu ∧
      (baseGame.execute_buffer_overflow ⟨6, 5⟩).1.player.cpu ≤
        baseGame.player.max_cpu) :=
  ⟨C10_cpu_stays_bounded.1 (Player.init 5 5) 7 (by decide) (by decide) (by decide),
   C10_cpu_stays_bounded.2.1 baseGame (by decide) (by decide),
   C10_cpu_stays_bounded.2.2.1 baseGame (by decide) (by decide),
   C10_cpu_stays_bounded.2.2.2.1 baseGame ⟨6, 5⟩ (by decide) (by decide) (by decide),
   C10_cpu_stays_bounded.2.2.2.2 baseGame ⟨6, 5⟩ (by decide) (by decide) (by decide)⟩

theorem spawn_admin_avatar_sets_flag (g : Game) :
    g.spawn_admin_avatar.admin_spawned = true ∨ g.spawn_admin_avatar = g := by
  unfold Game.spawn_admin_avatar
  split
  · right; rfl
  · left
    split
    simp

theorem check_admin_spawn_noop (g : Game)
    (h : g.player.detection < adminSpawnThreshold g.level ∨
      g.admin_spawned = true ∨
      g.enemies.any (fun e => e.type = EnemyType.admin) = true) :
    g.check_admin_spawn = g := by
  unfold Game.check_admin_spawn
  rw [if_neg]
  rintro ⟨h1, h2, h3⟩
  rcases h with h | h | h
  · exact absurd h1 (not_le.mpr h)
  · simp [h] at h2
  · simp [h] at h3

theorem adminSpawnSearch_sound (g : Game) :
    ∀ (n : Nat) (r r2 : Rng) (p : Position), g.adminSpawnSearch n r = (some p, r2) →
      g.adminCandidateOk p = true := by
  intro n
  induction n with
  | zero => intro r r2 p h; simp [Game.adminSpawnSearch] at h
  | succ k ih =>
    intro r r2 p h
    unfold Game.adminSpawnSearch at h
    simp only [] at h
    split at h
    · next hok =>
      obtain ⟨hp, -⟩ := Prod.mk.injEq .. ▸ h
      cases hp
      exact hok
    · exact ih _ _ _ h

/-- C4 (amended): the boss spawn is one-shot and guarded — it happens
only when detection has reached the level threshold, the per-level flag
is clear and no admin exists (otherwise `_check_admin_spawn` is the
identity, and the check is idempotent); a spawn cell found by the
bounded random candidate search is never a wall cell, never occupied by
another entity, beyond distance 15 from the intruder and feature-free;
but when the 50-candidate search is exhausted, the fixed fallback cell
may be a wall or occupied (the counterexample). -/
theorem C4_amended_admin_spawn_guarded :
    (∀ g : Game, (g.player.detection < adminSpawnThreshold g.level ∨
        g.admin_spawned = true ∨
        g.enemies.any (fun e => e.type = EnemyType.admin) = true) →
      g.check_admin_spawn = g) ∧
    (∀ g : Game, g.check_admin_spawn.check_admin_spawn = g.check_admin_spawn) ∧
    (∀ (g : Game) (n : Nat) (r r2 : Rng) (p : Position),
      g.adminSpawnSearch n r = (some p, r2) →
      g.game_map.is_wall p = false ∧ g.get_enemy_at p = none ∧
      p.distance_to g.player.position > 15 ∧
      g.game_map.cooling_nodes.contains (p.x, p.y) = false ∧
      g.game_map.cpu_recovery_nodes.contains (p.x, p.y) = false) ∧
    (∀ (g : Game) (p : Position) (r2 : Rng),
      adminSpawnThreshold g.level ≤ g.player.detection → g.admin_spawned = false →
      g.enemies.any (fun e => e.type = EnemyType.admin) = false →
      g.adminSpawnSearch 50 g.rng = (some p, r2) →
      g.check_admin_spawn.enemies = g.enemies ++ [spawnedAdmin g p] ∧
      g.check_admin_spawn.admin_spawned = true) := by
  refine ⟨check_admin_spawn_noop, ?_, ?_, ?_⟩
  · intro g
    by_cases h : g.player.detection ≥ adminSpawnThreshold g.level ∧
        ¬ g.admin_spawned ∧ ¬ g.enemies.any (fun e => e.type = EnemyType.admin)
    · have hs : g.check_admin_spawn = g.spawn_admin_avatar := by
        unfold Game.check_admin_spawn
        rw [if_pos h]
      rcases spawn_admin_avatar_sets_flag g with hflag | hid
      · rw [hs]
        exact check_admin_spawn_noop _ (Or.inr (Or.inl hflag))
      · rw [hs, hid, hs, hid]
    · have hg : g.check_admin_spawn = g := by
        unfold Game.check_admin_spawn
        rw [if_neg h]
      rw [hg, hg]
  · intro g n r r2 p h
    have hok := adminSpawnSearch_sound g n r r2 p h
    unfold Game.adminCandidateOk GameMap.is_valid_position at hok
    simp only [Bool.and_eq_true, Bool.not_eq_true, Bool.not_eq_true',
      Option.isNone_iff_eq_none, decide_eq_true_eq] at hok
    obtain ⟨⟨⟨⟨⟨⟨-, hwall⟩, hdist⟩, hnone⟩, hpatch⟩, hcool⟩, hcpu⟩ := hok
    exact ⟨hwall, hnone, hdist, hcool, hcpu⟩
  · intro g p r2 hdet hflag hadmin hsearch
    have hcond : g.player.detection ≥ adminSpawnThreshold g.level ∧
        ¬ g.admin_spawned ∧ ¬ g.enemies.any (fun e => e.type = EnemyType.admin) := by
      refine ⟨hdet, ?_, ?_⟩ <;> simp [hflag, hadmin]
    have hs : g.check_admin_spawn = g.spawn_admin_avatar := by
      unfold Game.check_admin_spawn
      rw [if_pos hcond]
    have hfind : g.find_admin_spawn_position = (p, r2) := by
      unfold Game.find_admin_spawn_position
      rw [hsearch]
    rw [hs]
    unfold Game.spawn_admin_avatar
    rw [if_neg (by simp [hflag])]
    rw [hfind]
    simp only []
    constructor
    · simp [spawnedAdmin]
    · simp

/-- Witness for C4: a concrete state (detection 90, level 1, oracle
`[25,25]`) whose candidate search finds the cell (30,30): the guards
and the candidate-cell properties of the amended theorem hold there. -/
theorem C4_amended_witness :
    (c4_game.check_admin_spawn.check_admin_spawn = c4_game.check_admin_spawn) ∧
    (c6_game.game_map.is_wall ⟨30, 30⟩ = false ∧
      c6_game.get_enemy_at ⟨30, 30⟩ = none ∧
      Position.distance_to ⟨30, 30⟩ c6_game.player.position > 15 ∧
      c6_game.game_map.cooling_nodes.contains ((30 : Int), (30 : Int)) = false ∧
      c6_game.game_map.cpu_recovery_nodes.contains ((30 : Int), (30 : Int)) = false) ∧
    c4_search_game.check_admin_spawn.enemies =
      c4_search_game.enemies ++ [spawnedAdmin c4_search_game ⟨30, 30⟩] := by
  refine ⟨C4_amended_admin_spawn_guarded.2.1 c4_game, ?_, ?_⟩
  · exact C4_amended_admin_spawn_guarded.2.2.1 c6_game 50 c6_game.rng [] ⟨30, 30⟩
      (by decide)
  · exact (C4_amended_admin_spawn_guarded.2.2.2 c4_search_game ⟨30, 30⟩ []
      (by decide) (by decide) (by decide) (by decide)).1

theorem sameExceptMessages_refl (g : Game) : sameExceptMessages g g := by
  unfold sameExceptMessages
  exact ⟨rfl, rfl, rfl, rfl, rfl, rfl, rfl, rfl, rfl, rfl, rfl, rfl, rfl⟩

theorem sameExceptMessages_add_message (g : Game) (m : Msg) :
    sameExceptMessages g (g.add_message m) := by
  unfold sameExceptMessages
  exact ⟨rfl, rfl, rfl, rfl, rfl, rfl, rfl, rfl, rfl, rfl, rfl, rfl, rfl⟩

theorem validate_target_fst (g : Game) (exploit : ExploitDefinition)
    (target : Position) :
    sameExceptMessages g (g.validate_target exploit target).1 := by
  unfold Game.validate_target
  split
  · exact sameExceptMessages_add_message g _
  · simp only []
    split
    · exact sameExceptMessages_add_message g _
    · exact sameExceptMessages_refl g

theorem validate_target_true_fst (g : Game) (exploit : ExploitDefinition)
    (target : Position) (h : (g.validate_target exploit target).2 = true) :
    (g.validate_target exploit target).1 = g := by
  unfold Game.validate_target at h ⊢
  by_cases hb : target.is_valid MAP_WIDTH MAP_HEIGHT = true <;> simp [hb] at h ⊢
  by_cases hr : exploit.range < g.player.position.distance_to target <;>
    simp [hr] at h ⊢

/-- C8 (amended): commands that fail the generic checks report a reason
and mutate nothing but the message log — an unequipped exploit, an
over-heat-budget exploit, and a target that is out of bounds or out of
range all leave the state unchanged; but an exploit whose
exploit-specific validation fails (a Shadow Step aimed at a non-shadow,
unwalkable or occupied cell) fails only after the heat cost has been
applied, so it reports failure with heat raised by the cost (position,
enemies and turn counter still unchanged, no turn processed). -/
theorem C8_amended_failure_mutation :
    (∀ (g : Game) (key : ExploitKey) (target : Position),
      (g.validate_target (EXPLOITS key) target).2 = false →
      (g.execute_exploit key target).2 = false ∧
      sameExceptMessages g (g.execute_exploit key target).1) ∧
    (∀ (g : Game) (key : ExploitKey),
      g.player.equipped_exploits.contains key = false →
      (g.use_exploit key).2 = false ∧ sameExceptMessages g (g.use_exploit key).1) ∧
    (∀ (g : Game) (key : ExploitKey),
      g.player.equipped_exploits.contains key = true →
      g.player.heat + calculate_heat_cost g.player (EXPLOITS key) > 100 →
      (g.use_exploit key).2 = false ∧ sameExceptMessages g (g.use_exploit key).1) ∧
    (∀ (g : Game) (target : Position),
      (g.validate_target (EXPLOITS .shadow_step) target).2 = true →
      ((g.game_map.is_shadow target && g.game_map.is_valid_position target) = false ∨
        (g.get_enemy_at target).isNone = false) →
      (g.execute_exploit .shadow_step target).2 = false ∧
      (g.execute_exploit .shadow_step target).1.player.heat =
        min 100 (g.player.heat +
          calculate_heat_cost g.player (EXPLOITS .shadow_step)) ∧
      (g.execute_exploit .shadow_step target).1.player.position =
        g.player.position ∧
      (g.execute_exploit .shadow_step target).1.enemies = g.enemies ∧
      (g.execute_exploit .shadow_step target).1.turn = g.turn) := by
  refine ⟨?_, ?_, ?_, ?_⟩
  · intro g key target h
    have hfst := validate_target_fst g (EXPLOITS key) target
    cases hv : g.validate_target (EXPLOITS key) target with
    | mk g1 ok =>
      rw [hv] at h hfst
      simp only [] at h hfst
      subst h
      unfold Game.execute_exploit
      simp only []
      rw [hv]
      exact ⟨rfl, hfst⟩
  · intro g key h
    unfold Game.use_exploit
    rw [h]
    exact ⟨rfl, sameExceptMessages_add_message g _⟩
  · intro g key hcont hheat
    unfold Game.use_exploit
    rw [hcont]
    simp only [Bool.not_true, Bool.false_eq_true, if_false, if_pos hheat]
    exact ⟨rfl, sameExceptMessages_add_message g _⟩
  · intro g target hval hfail
    have hfst := validate_target_true_fst g (EXPLOITS .shadow_step) target hval
    have hv : g.validate_target (EXPLOITS .shadow_step) target = (g, true) := by
      rw [Prod.ext_iff]
      exact ⟨hfst, hval⟩
    unfold Game.execute_exploit
    simp only []
    rw [hv]
    simp only [Bool.not_true, Bool.false_eq_true, if_false,
      Game.execute_specific_exploit]
    unfold Game.execute_shadow_step
    dsimp only [Game.get_enemy_at]
    rcases hfail with hf | hf
    · rw [if_neg (show ¬ (g.game_map.is_shadow target &&
          g.game_map.is_valid_position target) = true by simp [hf])]
      exact ⟨rfl, rfl, rfl, rfl, rfl⟩
    · simp only [Game.get_enemy_at] at hf
      by_cases hc : (g.game_map.is_shadow target &&
          g.game_map.is_valid_position target) = true
      · rw [if_pos hc, if_neg (show ¬ (List.find?
            (fun e => decide (e.position.distance_to target = 0)) g.enemies).isNone =
            true by simp [hf])]
        exact ⟨rfl, rfl, rfl, rfl, rfl⟩
      · rw [if_neg hc]
        exact ⟨rfl, rfl, rfl, rfl, rfl⟩

/-- Witness for C8: the four failure modes at concrete states — an
out-of-range Shadow Step, an unequipped Log Wiper, a Shadow Step over
the heat budget, and a Shadow Step at a non-shadow cell. -/
theorem C8_amended_witness :
    ((baseGame.execute_exploit .shadow_step ⟨40, 40⟩).2 = false ∧
      sameExceptMessages baseGame
        (baseGame.execute_exploit .shadow_step ⟨40, 40⟩).1) ∧
    ((baseGame.use_exploit .log_wiper).2 = false ∧
      sameExceptMessages baseGame (baseGame.use_exploit .log_wiper).1) ∧
    ((c8_hot_game.use_exploit .shadow_step).2 = false ∧
      sameExceptMessages c8_hot_game (c8_hot_game.use_exploit .shadow_step).1) ∧
    ((baseGame.execute_exploit .shadow_step ⟨6, 5⟩).2 = false ∧
      (baseGame.execute_exploit .shadow_step ⟨6, 5⟩).1.player.heat =
        min 100 (baseGame.player.heat +
          calculate_heat_cost baseGame.player (EXPLOITS .shadow_step)) ∧
      (baseGame.execute_exploit .shadow_step ⟨6, 5⟩).1.player.position =
        baseGame.player.position ∧
      (baseGame.execute_exploit .shadow_step ⟨6, 5⟩).1.enemies = baseGame.enemies ∧
      (baseGame.execute_exploit .shadow_step ⟨6, 5⟩).1.turn = baseGame.turn) :=
  ⟨C8_amended_failure_mutation.1 baseGame .shadow_step ⟨40, 40⟩ (by decide),
   C8_amended_failure_mutation.2.1 baseGame .log_wiper (by decide),
   C8_amended_failure_mutation.2.2.1 c8_hot_game .shadow_step (by decide) (by decide),
   C8_amended_failure_mutation.2.2.2 baseGame ⟨6, 5⟩ (by decide)
     (Or.inl (by decide))⟩

theorem losLoop_horiz (m : GameMap) (ex ey sx sy dx : Int) (hdx : 0 < dx) :
    ∀ (fuel : Nat) (x y : Int),
      losLoop m ex ey sx sy dx 0 fuel x y dx = scanDir m ex ey sx 0 fuel x y := by
  intro fuel
  induction fuel with
  | zero => intro x y; rfl
  | succ f ih =>
    intro x y
    have h1 : (2 * dx > -(0 : Int)) := by omega
    have h2 : ¬ (2 * dx < dx) := by omega
    simp only [losLoop, scanDir, h1, h2, if_true, if_false, sub_zero, add_zero,
      ih]

theorem losLoop_vert (m : GameMap) (ex ey sx sy dy : Int) (hdy : 0 < dy) :
    ∀ (fuel : Nat) (x y : Int),
      losLoop m ex ey sx sy 0 dy fuel x y (-dy) = scanDir m ex ey 0 sy fuel x y := by
  intro fuel
  induction fuel with
  | zero => intro x y; rfl
  | succ f ih =>
    intro x y
    have h1 : ¬ (2 * -dy > -dy) := by omega
    have h2 : (2 * -dy < 0) := by omega
    simp only [losLoop, scanDir, h1, h2, if_true, if_false, add_zero, ih]

theorem losLoop_diag (m : GameMap) (ex ey sx sy d : Int) (hd : 0 < d) :
    ∀ (fuel : Nat) (x y : Int),
      losLoop m ex ey sx sy d d fuel x y 0 = scanDir m ex ey sx sy fuel x y := by
  intro fuel
  induction fuel with
  | zero => intro x y; rfl
  | succ f ih =>
    intro x y
    have h1 : (2 * (0 : Int) > -d) := by omega
    have h2 : (2 * (0 : Int) < d) := by omega
    have h3 : (0 : Int) - d + d = 0 := by ring
    simp only [losLoop, scanDir, h1, h2, if_true, h3, ih]

theorem step_inj (ux uy : Int) (hu : ux = 1 ∨ ux = -1 ∨ uy = 1 ∨ uy = -1)
    (x y : Int) (n i : Nat) (hi : i < n) :
    ¬(x + i * ux = x + n * ux ∧ y + i * uy = y + n * uy) := by
  rintro ⟨hx, hy⟩
  rcases hu with h | h | h | h <;> subst h <;> simp only [mul_one, mul_neg] at hx hy <;>
    omega

theorem scanDir_spec (m : GameMap) (ux uy : Int) :
    ∀ (n fuel : Nat) (x y : Int), n < fuel →
      (∀ i : Nat, i < n →
        ¬(x + i * ux = x + n * ux ∧ y + i * uy = y + n * uy)) →
      (scanDir m (x + n * ux) (y + n * uy) ux uy fuel x y = true ↔
        ∀ i : Nat, i < n → m.is_wall ⟨x + i * ux, y + i * uy⟩ = false) := by
  intro n
  induction n with
  | zero =>
    intro fuel x y hf _
    cases fuel with
    | zero => omega
    | succ f => simp [scanDir]
  | succ k ih =>
    intro fuel x y hf hinj
    cases fuel with
    | zero => omega
    | succ f =>
      have hne : ¬(x = x + (↑(k + 1) : Int) * ux ∧ y = y + (↑(k + 1) : Int) * uy) := by
        have h := hinj 0 (by omega)
        simpa using h
      simp only [scanDir, hne, if_false]
      by_cases hw : m.is_wall ⟨x, y⟩ = true
      · rw [if_pos hw]
        constructor
        · intro hfalse
          exact absurd hfalse (by simp)
        · intro hall
          exfalso
          have h0 := hall 0 (by omega)
          simp only [Nat.cast_zero, zero_mul, add_zero] at h0
          rw [hw] at h0
          exact absurd h0 (by simp)
      · rw [if_neg hw]
        simp only [Bool.not_eq_true] at hw
        have hx : x + (↑(k + 1) : Int) * ux = (x + ux) + (↑k : Int) * ux := by
          push_cast
          ring
        have hy : y + (↑(k + 1) : Int) * uy = (y + uy) + (↑k : Int) * uy := by
          push_cast
          ring
        rw [hx, hy]
        rw [ih f (x + ux) (y + uy) (by omega) ?_]
        · constructor
          · intro hall i hi
            cases i with
            | zero => simpa using hw
            | succ j =>
              have hj := hall j (by omega)
              have ex : x + (↑(j + 1) : Int) * ux = (x + ux) + (↑j : Int) * ux := by
                push_cast
                ring
              have ey : y + (↑(j + 1) : Int) * uy = (y + uy) + (↑j : Int) * uy := by
                push_cast
                ring
              rw [ex, ey]
              exact hj
          · intro hall i hi
            have hj := hall (i + 1) (by omega)
            have ex : x + (↑(i + 1) : Int) * ux = (x + ux) + (↑i : Int) * ux := by
              push_cast
              ring
            have ey : y + (↑(i + 1) : Int) * uy = (y + uy) + (↑i : Int) * uy := by
              push_cast
              ring
            rw [ex, ey] at hj
            exact hj
        · intro i hi
          have h := hinj (i + 1) (by omega)
          rintro ⟨ha, hb⟩
          apply h
          constructor
          · push_cast at ha ⊢
            linear_combination ha
          · push_cast at hb ⊢
            linear_combination hb

theorem scanDir_symm (m : GameMap) (ux uy : Int)
    (hu : ux = 1 ∨ ux = -1 ∨ uy = 1 ∨ uy = -1)
    (n : Nat) (hn : 0 < n) (ax ay : Int)
    (hwa : m.is_wall ⟨ax, ay⟩ = false)
    (hwb : m.is_wall ⟨ax + n * ux, ay + n * uy⟩ = false)
    (ff fr : Nat) (hff : n < ff) (hfr : n < fr) :
    scanDir m (ax + n * ux) (ay + n * uy) ux uy ff ax ay =
      scanDir m ax ay (-ux) (-uy) fr (ax + n * ux) (ay + n * uy) := by
  have hu2 : (-ux) = 1 ∨ (-ux) = -1 ∨ (-uy) = 1 ∨ (-uy) = -1 := by
    rcases hu with h | h | h | h <;> simp [h]
  have hspec_f := scanDir_spec m ux uy n ff ax ay hff
    (fun i hi => step_inj ux uy hu ax ay n i hi)
  have hspec_r := scanDir_spec m (-ux) (-uy) n fr (ax + n * ux) (ay + n * uy) hfr
    (fun i hi => step_inj (-ux) (-uy) hu2 (ax + n * ux) (ay + n * uy) n i hi)
  rw [show ((ax + ↑n * ux) + ↑n * (-ux)) = ax from by ring,
    show ((ay + ↑n * uy) + ↑n * (-uy)) = ay from by ring] at hspec_r
  rw [Bool.eq_iff_iff, hspec_f, hspec_r]
  constructor
  · intro h i hi
    rcases Nat.eq_zero_or_pos i with hz | hpos
    · subst hz
      simpa using hwb
    · have hj := h (n - i) (by omega)
      rw [show ((ax + ↑n * ux) + ↑i * (-ux)) = ax + ↑(n - i) * ux from by
          push_cast [Nat.cast_sub hi.le]
          ring,
        show ((ay + ↑n * uy) + ↑i * (-uy)) = ay + ↑(n - i) * uy from by
          push_cast [Nat.cast_sub hi.le]
          ring]
      exact hj
  · intro h i hi
    rcases Nat.eq_zero_or_pos i with hz | hpos
    · subst hz
      simpa using hwa
    · have hj := h (n - i) (by omega)
      rw [show (ax + ↑i * ux) = (ax + ↑n * ux) + ↑(n - i) * (-ux) from by
          push_cast [Nat.cast_sub hi.le]
          ring,
        show (ay + ↑i * uy) = (ay + ↑n * uy) + ↑(n - i) * (-uy) from by
          push_cast [Nat.cast_sub hi.le]
          ring]
      exact hj

theorem hlos_symm_horiz (m : GameMap) (a b : Position)
    (ha : a.is_valid m.width m.height = true)
    (hb : b.is_valid m.width m.height = true)
    (hwa : m.is_wall a = false) (hwb : m.is_wall b = false)
    (hy : a.y = b.y) (hx : a.x < b.x) :
    m.has_line_of_sight a b = m.has_line_of_sight b a := by
  unfold GameMap.has_line_of_sight
  rw [if_neg (show ¬¬((a.is_valid m.width m.height &&
    b.is_valid m.width m.height) = true) by simp [ha, hb])]
  rw [if_neg (show ¬¬((b.is_valid m.width m.height &&
    a.is_valid m.width m.height) = true) by simp [ha, hb])]
  simp only []
  have hyn : (b.y - a.y).natAbs = 0 := by omega
  have hyn2 : (a.y - b.y).natAbs = 0 := by omega
  have hxn : (a.x - b.x).natAbs = (b.x - a.x).natAbs := by omega
  rw [hyn, hyn2, hxn]
  have hpos : 0 < (b.x - a.x).natAbs := by omega
  rw [if_pos hx, if_neg (show ¬ b.x < a.x by omega)]
  simp only [Nat.cast_zero, sub_zero, add_zero, Int.toNat_natCast]
  rw [losLoop_horiz m b.x b.y 1 (if a.y < b.y then 1 else -1)
      ((b.x - a.x).natAbs : Int) (by omega),
    losLoop_horiz m a.x a.y (-1) (if b.y < a.y then 1 else -1)
      ((b.x - a.x).natAbs : Int) (by omega)]
  have hbx : a.x + ((b.x - a.x).natAbs : Int) * 1 = b.x := by omega
  have hby : a.y + ((b.x - a.x).natAbs : Int) * 0 = b.y := by omega
  have hsym := scanDir_symm m 1 0 (Or.inl rfl) (b.x - a.x).natAbs hpos a.x a.y
    hwa (by rw [hbx, hby]; exact hwb) ((b.x - a.x).natAbs + 1)
    ((b.x - a.x).natAbs + 1) (by omega) (by omega)
  rw [hbx, hby, neg_zero] at hsym
  exact hsym

theorem hlos_symm_vert (m : GameMap) (a b : Position)
    (ha : a.is_valid m.width m.height = true)
    (hb : b.is_valid m.width m.height = true)
    (hwa : m.is_wall a = false) (hwb : m.is_wall b = false)
    (hx : a.x = b.x) (hy : a.y < b.y) :
    m.has_line_of_sight a b = m.has_line_of_sight b a := by
  unfold GameMap.has_line_of_sight
  rw [if_neg (show ¬¬((a.is_valid m.width m.height &&
    b.is_valid m.width m.height) = true) by simp [ha, hb])]
  rw [if_neg (show ¬¬((b.is_valid m.width m.height &&
    a.is_valid m.width m.height) = true) by simp [ha, hb])]
  simp only []
  have hxn : (b.x - a.x).natAbs = 0 := by omega
  have hxn2 : (a.x - b.x).natAbs = 0 := by omega
  have hyn : (a.y - b.y).natAbs = (b.y - a.y).natAbs := by omega
  rw [hxn, hxn2, hyn]
  have hpos : 0 < (b.y - a.y).natAbs := by omega
  rw [if_pos hy, if_neg (show ¬ b.y < a.y by omega)]
  simp only [Nat.cast_zero, zero_sub, zero_add, Int.toNat_natCast]
  rw [losLoop_vert m b.x b.y (if a.x < b.x then 1 else -1) 1
      ((b.y - a.y).natAbs : Int) (by omega),
    losLoop_vert m a.x a.y (if b.x < a.x then 1 else -1) (-1)
      ((b.y - a.y).natAbs : Int) (by omega)]
  have hbx : a.x + ((b.y - a.y).natAbs : Int) * 0 = b.x := by omega
  have hby : a.y + ((b.y - a.y).natAbs : Int) * 1 = b.y := by omega
  have hsym := scanDir_symm m 0 1 (Or.inr (Or.inr (Or.inl rfl)))
    (b.y - a.y).natAbs hpos a.x a.y hwa (by rw [hbx, hby]; exact hwb)
    ((b.y - a.y).natAbs + 1) ((b.y - a.y).natAbs + 1) (by omega) (by omega)
  rw [hbx, hby, neg_zero] at hsym
  exact hsym

theorem hlos_symm_diag (m : GameMap) (a b : Position)
    (ha : a.is_valid m.width m.height = true)
    (hb : b.is_valid m.width m.height = true)
    (hwa : m.is_wall a = false) (hwb : m.is_wall b = false)
    (hd : (b.x - a.x).natAbs = (b.y - a.y).natAbs) (hx : a.x < b.x) :
    m.has_line_of_sight a b = m.has_line_of_sight b a := by
  unfold GameMap.has_line_of_sight
  rw [if_neg (show ¬¬((a.is_valid m.width m.height &&
    b.is_valid m.width m.height) = true) by simp [ha, hb])]
  rw [if_neg (show ¬¬((b.is_valid m.width m.height &&
    a.is_valid m.width m.height) = true) by simp [ha, hb])]
  simp only []
  have hxn : (a.x - b.x).natAbs = (b.x - a.x).natAbs := by omega
  have hyn : (b.y - a.y).natAbs = (b.x - a.x).natAbs := by omega
  have hyn2 : (a.y - b.y).natAbs = (b.x - a.x).natAbs := by omega
  rw [hxn, hyn, hyn2]
  have hpos : 0 < (b.x - a.x).natAbs := by omega
  have hfuel : ((((b.x - a.x).natAbs : Int)) + ((b.x - a.x).natAbs : Int)).toNat =
      (b.x - a.x).natAbs + (b.x - a.x).natAbs := by omega
  rw [sub_self, hfuel]
  rw [if_pos hx, if_neg (show ¬ b.x < a.x by omega)]
  rw [losLoop_diag m b.x b.y 1 (if a.y < b.y then 1 else -1)
      ((b.x - a.x).natAbs : Int) (by omega),
    losLoop_diag m a.x a.y (-1) (if b.y < a.y then 1 else -1)
      ((b.x - a.x).natAbs : Int) (by omega)]
  rcases lt_trichotomy a.y b.y with hyy | hyy | hyy
  · rw [if_pos hyy, if_neg (show ¬ b.y < a.y by omega)]
    have hbx : a.x + ((b.x - a.x).natAbs : Int) * 1 = b.x := by omega
    have hby : a.y + ((b.x - a.x).natAbs : Int) * 1 = b.y := by omega
    have hsym := scanDir_symm m 1 1 (Or.inl rfl) (b.x - a.x).natAbs hpos a.x a.y
      hwa (by rw [hbx, hby]; exact hwb)
      ((b.x - a.x).natAbs + (b.x - a.x).natAbs + 1)
      ((b.x - a.x).natAbs + (b.x - a.x).natAbs + 1) (by omega) (by omega)
    rw [hbx, hby] at hsym
    exact hsym
  · omega
  · rw [if_neg (show ¬ a.y < b.y by omega), if_pos hyy]
    have hbx : a.x + ((b.x - a.x).natAbs : Int) * 1 = b.x := by omega
    have hby : a.y + ((b.x - a.x).natAbs : Int) * (-1) = b.y := by omega
    have hsym := scanDir_symm m 1 (-1) (Or.inl rfl) (b.x - a.x).natAbs hpos a.x a.y
      hwa (by rw [hbx, hby]; exact hwb)
      ((b.x - a.x).natAbs + (b.x - a.x).natAbs + 1)
      ((b.x - a.x).natAbs + (b.x - a.x).natAbs + 1) (by omega) (by omega)
    rw [hbx, hby] at hsym
    rw [show -(-1 : Int) = 1 from by norm_num] at hsym
    exact hsym

/-- C2 counterexample: with the single wall (1,0) — a configuration with
no single-cell diagonal gap — line of sight from (0,0) to (4,2) is
false while line of sight from (4,2) to (0,0) is true: the Bresenham
connectivity result is not symmetric under endpoint swap. -/
theorem C2_counterexample_los_asymmetric :
    c2_map.noSingleCellDiagonalGaps = true ∧
    Position.is_valid ⟨0, 0⟩ c2_map.width c2_map.height = true ∧
    Position.is_valid ⟨4, 2⟩ c2_map.width c2_map.height = true ∧
    c2_map.is_wall ⟨0, 0⟩ = false ∧ c2_map.is_wall ⟨4, 2⟩ = false ∧
    c2_map.has_line_of_sight ⟨0, 0⟩ ⟨4, 2⟩ = false ∧
    c2_map.has_line_of_sight ⟨4, 2⟩ ⟨0, 0⟩ = true := by decide

/-- C2 (amended): `has_line_of_sight` is symmetric under endpoint swap
for every wall configuration whenever the two in-bounds endpoints lie on
a common row, a common column, or an exact diagonal and neither endpoint
is a wall cell; on oblique segments the two Bresenham traversals can
visit different cells and symmetry fails even without single-cell
diagonal gaps (see the counterexample). -/
theorem C2_amended_los_symmetric_on_lines :
    ∀ (m : GameMap) (a b : Position),
      a.is_valid m.width m.height = true → b.is_valid m.width m.height = true →
      m.is_wall a = false → m.is_wall b = false →
      (a.y = b.y ∨ a.x = b.x ∨ (b.x - a.x).natAbs = (b.y - a.y).natAbs) →
      m.has_line_of_sight a b = m.has_line_of_sight b a := by
  intro m a b ha hb hwa hwb hline
  by_cases hab : a = b
  · rw [hab]
  · have hne : ¬(a.x = b.x ∧ a.y = b.y) := by
      rintro ⟨h1, h2⟩
      apply hab
      cases a
      cases b
      simp_all
    rcases hline with hy | hx | hd
    · rcases lt_trichotomy a.x b.x with h | h | h
      · exact hlos_symm_horiz m a b ha hb hwa hwb hy h
      · exact absurd ⟨h, hy⟩ hne
      · exact (hlos_symm_horiz m b a hb ha hwb hwa hy.symm h).symm
    · rcases lt_trichotomy a.y b.y with h | h | h
      · exact hlos_symm_vert m a b ha hb hwa hwb hx h
      · exact absurd ⟨hx, h⟩ hne
      · exact (hlos_symm_vert m b a hb ha hwb hwa hx.symm h).symm
    · rcases lt_trichotomy a.x b.x with h | h | h
      · exact hlos_symm_diag m a b ha hb hwa hwb hd h
      · exact absurd ⟨h, by omega⟩ hne
      · exact (hlos_symm_diag m b a hb ha hwb hwa (by omega) h).symm

/-- Witness for C2: the amended symmetry applied on the counterexample
map to the horizontal pair (0,0)–(5,0) (the wall (1,0) lies between
them), the vertical pair (3,1)–(3,7), and the diagonal pair
(0,1)–(4,5). -/
theorem C2_amended_witness :
    c2_map.has_line_of_sight ⟨0, 0⟩ ⟨5, 0⟩ = c2_map.has_line_of_sight ⟨5, 0⟩ ⟨0, 0⟩ ∧
    c2_map.has_line_of_sight ⟨3, 1⟩ ⟨3, 7⟩ = c2_map.has_line_of_sight ⟨3, 7⟩ ⟨3, 1⟩ ∧
    c2_map.has_line_of_sight ⟨0, 1⟩ ⟨4, 5⟩ = c2_map.has_line_of_sight ⟨4, 5⟩ ⟨0, 1⟩ :=
  ⟨C2_amended_los_symmetric_on_lines c2_map ⟨0, 0⟩ ⟨5, 0⟩ (by decide) (by decide)
      (by decide) (by decide) (Or.inl (by decide)),
   C2_amended_los_symmetric_on_lines c2_map ⟨3, 1⟩ ⟨3, 7⟩ (by decide) (by decide)
      (by decide) (by decide) (Or.inr (Or.inl (by decide))),
   C2_amended_los_symmetric_on_lines c2_map ⟨0, 1⟩ ⟨4, 5⟩ (by decide) (by decide)
      (by decide) (by decide) (Or.inr (Or.inr (by decide)))⟩

end RSP
